import Mathlib

/-!
Verification of the streaming transcription core of the meeting-minutes
application.  The Rust sources under `src/frontend/src-tauri/src/audio/` are
shallowly embedded: pure computations become Lean functions, stateful
components become explicit state-passing functions, `f32`/`f64` values are
modelled as rationals, machine integers as `Nat`, wall-clock instants as
`Nat` millisecond timestamps supplied explicitly, and fallible operations
return `Except`/`Option`.
-/

namespace Minutes

/-- Repeatedly pop the front of a list while its length exceeds `maxLen`
(the `while len > max { pop_front }` idiom used throughout the sources);
equivalently, drop all but the last `maxLen` elements. -/
def capFront (maxLen : Nat) (l : List α) : List α :=
  l.drop (l.length - maxLen)

theorem capFront_length (maxLen : Nat) (l : List α) :
    (capFront maxLen l).length = min maxLen l.length := by
  simp [capFront]
  omega

/-! ## Adaptive buffer (`audio/buffer.rs`) -/

/-- `OverflowStrategy` from `buffer.rs`. -/
inductive OverflowStrategy
  | dropOldest
  | backpressure
  | expand
deriving DecidableEq

/-- `BufferError` from `buffer.rs`. -/
inductive BufferError
  | bufferFull
  | capacityTooSmall
  | operationFailed (msg : String)
deriving DecidableEq

/-- The state of an `AdaptiveBuffer<T>`: `min_size`, `max_size`, the value of
the `current_capacity` atomic, the `data` vector and the overflow strategy.
Metrics and the load tracker do not influence the data/capacity evolution
and are not modelled. -/
structure BufState (α : Type) where
  minSize : Nat
  maxSize : Nat
  capacity : Nat
  data : List α
  strategy : OverflowStrategy
deriving DecidableEq

namespace AdaptiveBuffer

/-- `AdaptiveBuffer::new`: initial capacity is `min_size.max(1000)`
("Start with reasonable default"), strategy `DropOldest`. -/
def new (α : Type) (minSize maxSize : Nat) : BufState α :=
  { minSize := minSize
    maxSize := maxSize
    capacity := max minSize 1000
    data := []
    strategy := .dropOldest }

/-- `AdaptiveBuffer::with_overflow_strategy`. -/
def withOverflowStrategy (α : Type) (minSize maxSize : Nat)
    (strategy : OverflowStrategy) : BufState α :=
  { new α minSize maxSize with strategy := strategy }

/-- `AdaptiveBuffer::resize_buffer`: fails with `CapacityTooSmall` when the
requested capacity is below the current length, otherwise records the new
capacity (the `Vec::reserve` call only affects allocation). -/
def resizeBuffer (s : BufState α) (newCapacity : Nat) :
    Except BufferError (BufState α) :=
  if newCapacity < s.data.length then .error .capacityTooSmall
  else .ok { s with capacity := newCapacity }

/-- The overflow handling performed by `AdaptiveBuffer::push` before the
item is appended. -/
def handleOverflow (s : BufState α) : Except BufferError (BufState α) :=
  if s.data.length ≥ s.capacity then
    match s.strategy with
    | .dropOldest =>
        .ok (if s.data.isEmpty then s else { s with data := s.data.tail })
    | .backpressure => .error .bufferFull
    | .expand =>
        if s.capacity < s.maxSize then
          resizeBuffer s (min (s.capacity * 2) s.maxSize)
        else
          .ok (if s.data.isEmpty then s else { s with data := s.data.tail })
  else .ok s

/-- `AdaptiveBuffer::push` without the trailing load-driven
`check_and_adjust_capacity` call, which is modelled as a separate
`adjustCapacity` step. -/
def push (s : BufState α) (item : α) : Except BufferError (BufState α) :=
  match handleOverflow s with
  | .error e => .error e
  | .ok s1 => .ok { s1 with data := s1.data ++ [item] }

/-- `AdaptiveBuffer::pop`: remove and return the head. -/
def pop (s : BufState α) : Option α × BufState α :=
  match s.data with
  | [] => (none, s)
  | x :: xs => (some x, { s with data := xs })

/-- `AdaptiveBuffer::clear`: empty the data and reset the capacity to
`min_size`. -/
def clear (s : BufState α) : BufState α :=
  { s with data := [], capacity := s.minSize }

/-- The branch taken by `AdaptiveBuffer::adjust_capacity` for a given load
factor, carrying the integer value of the floating-point product:
`grow` stands for `(capacity as f32 * 1.5) as usize` (load factor `> 0.8`)
and `shrink` for `(capacity as f32 * 0.75) as usize` (load factor `< 0.3`). -/
inductive LoadBranch
  | high (grow : Nat)
  | low (shrink : Nat)
  | moderate

/-- `AdaptiveBuffer::adjust_capacity`: compute the target capacity for the
load branch, clamp it into `[min_size, max_size]` on the respective side and
resize; a failing resize leaves the state unchanged (the error is only
logged). -/
def adjustCapacity (s : BufState α) (b : LoadBranch) : BufState α :=
  let newCapacity :=
    match b with
    | .high grow => min grow s.maxSize
    | .low shrink => max shrink s.minSize
    | .moderate => s.capacity
  if newCapacity ≠ s.capacity then
    match resizeBuffer s newCapacity with
    | .ok s1 => s1
    | .error _ => s
  else s

/-- Bounds that the floating-point arithmetic of `adjust_capacity`
guarantees for the abstracted products: `capacity ≤ (capacity * 1.5) as usize`
and `(capacity * 0.75) as usize ≤ capacity`. -/
def LoadBranch.sound (s : BufState α) : LoadBranch → Prop
  | .high grow => s.capacity ≤ grow
  | .low shrink => shrink ≤ s.capacity
  | .moderate => True

/-- States reachable through the public `AdaptiveBuffer` interface:
construction, `push`, `pop`, `clear` and the (manual or load-driven)
capacity adjustment. -/
inductive Reach (α : Type) (minSize maxSize : Nat) : BufState α → Prop
  | init : Reach α minSize maxSize (new α minSize maxSize)
  | initStrategy (strategy : OverflowStrategy) :
      Reach α minSize maxSize (withOverflowStrategy α minSize maxSize strategy)
  | push (s : BufState α) (item : α) (s1 : BufState α) :
      Reach α minSize maxSize s → push s item = .ok s1 →
      Reach α minSize maxSize s1
  | pop (s : BufState α) :
      Reach α minSize maxSize s → Reach α minSize maxSize (pop s).2
  | clear (s : BufState α) :
      Reach α minSize maxSize s → Reach α minSize maxSize (clear s)
  | adjust (s : BufState α) (b : LoadBranch) :
      Reach α minSize maxSize s → b.sound s →
      Reach α minSize maxSize (adjustCapacity s b)

end AdaptiveBuffer

/-- The buffer invariant of claim C1, corrected for the actual initial
capacity: the stored-item count never exceeds the capacity, the capacity
never drops below `min_size`, and it never exceeds
`max(max(min_size, 1000), max_size)`. -/
def BufInv (minSize maxSize : Nat) (s : BufState α) : Prop :=
  s.minSize = minSize ∧ s.maxSize = maxSize ∧
    s.data.length ≤ s.capacity ∧ minSize ≤ s.capacity ∧
    s.capacity ≤ max (max minSize 1000) maxSize

namespace AdaptiveBuffer

theorem push_inv {minSize maxSize : Nat} {s s1 : BufState α} {item : α}
    (hmin : 1 ≤ minSize) (h : BufInv minSize maxSize s)
    (hp : push s item = .ok s1) : BufInv minSize maxSize s1 := by
  obtain ⟨h1, h2, h3, h4, h5⟩ := h
  by_cases hov : s.data.length ≥ s.capacity
  · have hne : ¬ (s.data.isEmpty = true) := by
      rw [List.isEmpty_iff]
      intro hd
      rw [hd] at hov
      simp at hov
      omega
    cases hstrat : s.strategy with
    | dropOldest =>
        have hcalc : push s item = .ok { s with data := s.data.tail ++ [item] } := by
          simp [push, handleOverflow, hov, hstrat, hne]
        rw [hcalc] at hp
        obtain rfl := (Except.ok.inj hp).symm
        refine ⟨h1, h2, ?_, h4, h5⟩
        simp only [List.length_append, List.length_tail, List.length_cons,
          List.length_nil]
        have hd : 1 ≤ s.data.length := by
          rw [List.isEmpty_iff] at hne
          cases hdd : s.data with
          | nil => exact absurd hdd hne
          | cons a l => simp [hdd]
        omega
    | backpressure =>
        have hcalc : push s item = .error .bufferFull := by
          simp [push, handleOverflow, hov, hstrat]
        rw [hcalc] at hp
        exact Except.noConfusion hp
    | expand =>
        by_cases hcap : s.capacity < s.maxSize
        · have hno : ¬ (min (s.capacity * 2) s.maxSize < s.data.length) := by
            omega
          have hcalc : push s item = .ok { s with
              capacity := min (s.capacity * 2) s.maxSize,
              data := s.data ++ [item] } := by
            simp [push, handleOverflow, resizeBuffer, hov, hstrat, hcap, hno]
          rw [hcalc] at hp
          obtain rfl := (Except.ok.inj hp).symm
          refine ⟨h1, h2, ?_, ?_, ?_⟩ <;>
            simp only [List.length_append, List.length_cons, List.length_nil] <;>
            omega
        · have hcalc : push s item = .ok { s with data := s.data.tail ++ [item] } := by
            simp [push, handleOverflow, hov, hstrat, hcap, hne]
          rw [hcalc] at hp
          obtain rfl := (Except.ok.inj hp).symm
          refine ⟨h1, h2, ?_, h4, h5⟩
          simp only [List.length_append, List.length_tail, List.length_cons,
            List.length_nil]
          have hd : 1 ≤ s.data.length := by
            rw [List.isEmpty_iff] at hne
            cases hdd : s.data with
            | nil => exact absurd hdd hne
            | cons a l => simp [hdd]
          omega
  · have hcalc : push s item = .ok { s with data := s.data ++ [item] } := by
      simp [push, handleOverflow, hov]
    rw [hcalc] at hp
    obtain rfl := (Except.ok.inj hp).symm
    refine ⟨h1, h2, ?_, h4, h5⟩
    simp only [List.length_append, List.length_cons, List.length_nil]
    omega

theorem pop_inv {minSize maxSize : Nat} {s : BufState α}
    (h : BufInv minSize maxSize s) : BufInv minSize maxSize (pop s).2 := by
  obtain ⟨h1, h2, h3, h4, h5⟩ := h
  unfold pop
  cases hd : s.data with
  | nil => exact ⟨h1, h2, h3, h4, h5⟩
  | cons a l =>
      refine ⟨h1, h2, ?_, h4, h5⟩
      have : s.data.length = l.length + 1 := by simp [hd]
      simp only
      omega

theorem clear_inv {minSize maxSize : Nat} {s : BufState α}
    (h : BufInv minSize maxSize s) : BufInv minSize maxSize (clear s) := by
  obtain ⟨h1, h2, h3, h4, h5⟩ := h
  refine ⟨h1, h2, ?_, ?_, ?_⟩ <;> simp [clear, h1]

theorem adjust_resize_inv {minSize maxSize : Nat} {s : BufState α}
    {newCapacity : Nat} (h : BufInv minSize maxSize s)
    (hmin : minSize ≤ newCapacity)
    (hmax : newCapacity ≤ max (max minSize 1000) maxSize)
    (hne : newCapacity ≠ s.capacity) :
    BufInv minSize maxSize
      (match resizeBuffer s newCapacity with
        | .ok s1 => s1
        | .error _ => s) := by
  obtain ⟨h1, h2, h3, h4, h5⟩ := h
  by_cases hsmall : newCapacity < s.data.length
  · have : (match resizeBuffer s newCapacity with
        | .ok s1 => s1
        | .error _ => s) = s := by
      simp [resizeBuffer, hsmall]
    rw [this]
    exact ⟨h1, h2, h3, h4, h5⟩
  · have : (match resizeBuffer s newCapacity with
        | .ok s1 => s1
        | .error _ => s) = { s with capacity := newCapacity } := by
      simp [resizeBuffer, hsmall]
    rw [this]
    exact ⟨h1, h2, by simp; omega, by simp; omega, by simp; omega⟩

theorem adjust_inv {minSize maxSize : Nat} {s : BufState α} {b : LoadBranch}
    (hle : minSize ≤ maxSize)
    (h : BufInv minSize maxSize s) (hb : b.sound s) :
    BufInv minSize maxSize (adjustCapacity s b) := by
  have h1 := h.1
  have h2 := h.2.1
  have h4 := h.2.2.2.1
  have h5 := h.2.2.2.2
  cases b with
  | high grow =>
      simp only [LoadBranch.sound] at hb
      by_cases hne : min grow s.maxSize ≠ s.capacity
      · have : adjustCapacity s (.high grow) =
            (match resizeBuffer s (min grow s.maxSize) with
              | .ok s1 => s1
              | .error _ => s) := by
          simp [adjustCapacity, hne]
        rw [this]
        exact adjust_resize_inv h (by omega) (by omega) hne
      · have : adjustCapacity s (.high grow) = s := by
          simp [adjustCapacity, hne]
        rw [this]
        exact h
  | low shrink =>
      simp only [LoadBranch.sound] at hb
      by_cases hne : max shrink s.minSize ≠ s.capacity
      · have : adjustCapacity s (.low shrink) =
            (match resizeBuffer s (max shrink s.minSize) with
              | .ok s1 => s1
              | .error _ => s) := by
          simp [adjustCapacity, hne]
        rw [this]
        exact adjust_resize_inv h (by omega) (by omega) hne
      · have : adjustCapacity s (.low shrink) = s := by
          simp [adjustCapacity, hne]
        rw [this]
        exact h
  | moderate =>
      have : adjustCapacity s .moderate = s := by
        simp [adjustCapacity]
      rw [this]
      exact h

theorem reach_inv {minSize maxSize : Nat} {s : BufState α}
    (hmin : 1 ≤ minSize) (hle : minSize ≤ maxSize)
    (hr : Reach α minSize maxSize s) :
    BufInv minSize maxSize s := by
  induction hr with
  | init =>
      refine ⟨rfl, rfl, ?_, ?_, ?_⟩ <;> simp [new]
  | initStrategy strategy =>
      refine ⟨rfl, rfl, ?_, ?_, ?_⟩ <;>
        simp [withOverflowStrategy, new]
  | push s item s1 _ hp ih => exact push_inv hmin ih hp
  | pop s _ ih => exact pop_inv ih
  | clear s _ ih => exact clear_inv ih
  | adjust s b _ hb ih => exact adjust_inv hle ih hb

end AdaptiveBuffer

/-- Claim C1 as stated: in every reachable `AdaptiveBuffer` state the number
of stored items is at most the capacity and the capacity lies between
`min_size` and `max_size` inclusive. -/
def C1Stated : Prop :=
  ∀ (minSize maxSize : Nat) (s : BufState Unit), minSize ≤ maxSize →
    AdaptiveBuffer.Reach Unit minSize maxSize s →
    s.data.length ≤ s.capacity ∧ minSize ≤ s.capacity ∧ s.capacity ≤ maxSize

/-- C1 counterexample: immediately after `AdaptiveBuffer::new(10, 100)` the
capacity is `max(10, 1000) = 1000`, which exceeds `max_size = 100`. -/
theorem C1_counterexample : ¬ C1Stated := by
  intro h
  have h10 := h 10 100 (AdaptiveBuffer.new Unit 10 100) (by decide)
    AdaptiveBuffer.Reach.init
  exact absurd h10.2.2 (by decide)

/-- C1 amended: provided `1 ≤ min_size ≤ max_size`, every reachable
`AdaptiveBuffer` state satisfies `len ≤ capacity` and `min_size ≤ capacity`;
the capacity can exceed `max_size` (construction starts it at
`max(min_size, 1000)`) but never exceeds `max(max(min_size, 1000), max_size)`. -/
theorem C1_amended (minSize maxSize : Nat) (s : BufState Unit)
    (hmin : 1 ≤ minSize) (hle : minSize ≤ maxSize)
    (hr : AdaptiveBuffer.Reach Unit minSize maxSize s) :
    s.data.length ≤ s.capacity ∧ minSize ≤ s.capacity ∧
      s.capacity ≤ max (max minSize 1000) maxSize :=
  (AdaptiveBuffer.reach_inv hmin hle hr).2.2

/-- C1 amended, witnessed on the concrete buffer `new(1, 1)`. -/
theorem C1_amended_witness :
    (AdaptiveBuffer.new Unit 1 1).data.length ≤ (AdaptiveBuffer.new Unit 1 1).capacity ∧
      1 ≤ (AdaptiveBuffer.new Unit 1 1).capacity ∧
      (AdaptiveBuffer.new Unit 1 1).capacity ≤ max (max 1 1000) 1 :=
  C1_amended 1 1 (AdaptiveBuffer.new Unit 1 1) (by decide) (by decide)
    AdaptiveBuffer.Reach.init

/-! ## Managed channel (`audio/channel.rs`) -/

/-- `ChannelState` from `channel.rs`. -/
inductive ChannelState
  | active
  | recovering
  | failed
  | closed
  | initializing
deriving DecidableEq

/-- The fields of `HealthMonitor` (all `Atomic*`), as plain values; wall-clock
`SystemTime` readings become explicit `now` arguments. -/
structure HealthMonitor where
  lastActivity : Nat
  errorCount : Nat
  recoveryAttempts : Nat
  lastRecoveryAttempt : Nat
  isHealthy : Bool
deriving DecidableEq

namespace HealthMonitor

/-- `HealthMonitor::new`. -/
def new (now : Nat) : HealthMonitor :=
  { lastActivity := now
    errorCount := 0
    recoveryAttempts := 0
    lastRecoveryAttempt := 0
    isHealthy := true }

/-- `HealthMonitor::record_activity`: refresh the activity stamp, mark
healthy, reset the error count. -/
def recordActivity (h : HealthMonitor) (now : Nat) : HealthMonitor :=
  { h with lastActivity := now, isHealthy := true, errorCount := 0 }

/-- `HealthMonitor::record_error`: bump the error count; at `≥ 3` errors the
monitor becomes unhealthy. -/
def recordError (h : HealthMonitor) : HealthMonitor :=
  let errorCount := h.errorCount + 1
  if errorCount ≥ 3 then { h with errorCount := errorCount, isHealthy := false }
  else { h with errorCount := errorCount }

/-- `HealthMonitor::record_recovery_attempt`. -/
def recordRecoveryAttempt (h : HealthMonitor) (now : Nat) : HealthMonitor :=
  { h with recoveryAttempts := h.recoveryAttempts + 1, lastRecoveryAttempt := now }

/-- `HealthMonitor::should_attempt_recovery`: refuse after more than 10
attempts, otherwise require `now - last_attempt` to exceed the exponential
backoff `2^min(attempts, 10) × 1000` milliseconds. -/
def shouldAttemptRecovery (h : HealthMonitor) (now : Nat) : Bool :=
  if h.recoveryAttempts > 10 then false
  else decide (now - h.lastRecoveryAttempt > 2 ^ min h.recoveryAttempts 10 * 1000)

end HealthMonitor

/-- The state of a `ManagedChannel<T>`: whether the `sender: Option<...>` is
present, the `ChannelState`, the health monitor and the backing
`AdaptiveBuffer`.  The tokio broadcast internals are external; whether a
`broadcast::send` reaches a subscriber is supplied as an input to `send`. -/
structure ChanState (α : Type) where
  senderSome : Bool
  state : ChannelState
  health : HealthMonitor
  buffer : BufState α
deriving DecidableEq

namespace ManagedChannel

/-- `ManagedChannel::new`: sender present, state `Initializing`, backing
buffer `with_overflow_strategy(capacity, capacity * 2, DropOldest)`. -/
def new (α : Type) (capacity : Nat) (now : Nat) : ChanState α :=
  { senderSome := true
    state := .initializing
    health := HealthMonitor.new now
    buffer := AdaptiveBuffer.withOverflowStrategy α capacity (capacity * 2) .dropOldest }

/-- `ManagedChannel::send`: with no sender, fail; with a sender, a delivered
broadcast records activity and sets the state to `Active`, while an
undelivered one (no receivers) pushes the payload into the backing buffer. -/
def send (s : ChanState α) (data : α) (hasReceivers : Bool) (now : Nat) :
    Except String (ChanState α) :=
  if s.senderSome then
    if hasReceivers then
      .ok { s with health := s.health.recordActivity now, state := .active }
    else
      match AdaptiveBuffer.push s.buffer data with
      | .ok b => .ok { s with buffer := b }
      | .error _ => .error "Buffer failed"
  else .error "Channel is closed"

/-- `ManagedChannel::subscribe` (the receiver itself is external). -/
def subscribe (s : ChanState α) : Except String Unit :=
  if s.senderSome then .ok () else .error "Channel is closed"

/-- `ManagedChannel::close`: drop the sender and enter `Closed`. -/
def close (s : ChanState α) : ChanState α :=
  { s with senderSome := false, state := .closed }

/-- `ManagedChannel::initiate_recovery`: when the health monitor's backoff
allows it, record the attempt, re-create the broadcast sender and move
through `Recovering` to `Active` — with no check of the current state. -/
def initiateRecovery (s : ChanState α) (now : Nat) :
    Except String (ChanState α) :=
  if ¬ s.health.shouldAttemptRecovery now then
    .error "Recovery not needed or too early"
  else
    .ok { s with
      health := s.health.recordRecoveryAttempt now
      senderSome := true
      state := .active }

/-- `ManagedChannel::send_with_backpressure`: try `send`, on failure push to
the backing buffer. -/
def sendWithBackpressure (s : ChanState α) (data : α) (hasReceivers : Bool)
    (now : Nat) : Except String (ChanState α) :=
  match send s data hasReceivers now with
  | .ok s1 => .ok s1
  | .error _ =>
      match AdaptiveBuffer.push s.buffer data with
      | .ok b => .ok { s with buffer := b }
      | .error _ => .error "Failed to buffer data"

/-- One public operation on a managed channel. -/
inductive Op (α : Type)
  | send (data : α) (hasReceivers : Bool) (now : Nat)
  | sendWithBackpressure (data : α) (hasReceivers : Bool) (now : Nat)
  | subscribe
  | close
  | initiateRecovery (now : Nat)

/-- Whether an operation is `initiate_recovery`. -/
def Op.isRecovery : Op α → Bool
  | .initiateRecovery _ => true
  | _ => false

/-- The state after an operation (a failing operation leaves the state as the
implementation leaves it, which for every failure path is unchanged). -/
def applyOp (s : ChanState α) : Op α → ChanState α
  | .send data hasReceivers now =>
      match send s data hasReceivers now with
      | .ok s1 => s1
      | .error _ => s
  | .sendWithBackpressure data hasReceivers now =>
      match sendWithBackpressure s data hasReceivers now with
      | .ok s1 => s1
      | .error _ => s
  | .subscribe => s
  | .close => close s
  | .initiateRecovery now =>
      match initiateRecovery s now with
      | .ok s1 => s1
      | .error _ => s

/-- The state after a sequence of operations. -/
def applyOps (s : ChanState α) (ops : List (Op α)) : ChanState α :=
  ops.foldl applyOp s

end ManagedChannel

/-- Claim C2 as stated: after `close()`, every sequence of further operations
(`initiate_recovery` included) leaves the state `Closed`, and `send` keeps
failing. -/
def C2Stated : Prop :=
  ∀ (s : ChanState Unit) (ops : List (ManagedChannel.Op Unit)),
    (ManagedChannel.applyOps (ManagedChannel.close s) ops).state = .closed ∧
    ∀ (hasReceivers : Bool) (now : Nat),
      ¬ (ManagedChannel.send (ManagedChannel.applyOps (ManagedChannel.close s) ops)
          () hasReceivers now).isOk

/-- C2 counterexample: close a fresh channel at time 0, then call
`initiate_recovery` at time 5000 ms.  The backoff check passes (0 attempts,
5000 > 2⁰ × 1000), and — since `initiate_recovery` never inspects the current
state — the channel leaves `Closed` and becomes `Active`. -/
theorem C2_counterexample : ¬ C2Stated := by
  intro h
  have h5 := (h (ManagedChannel.new Unit 4 0)
    [ManagedChannel.Op.initiateRecovery 5000]).1
  exact absurd h5 (by decide)

namespace ManagedChannel

/-- A single non-recovery operation keeps a sender-less `Closed` channel
sender-less and `Closed`. -/
theorem applyOp_closed {s : ChanState α} {op : Op α}
    (hst : s.state = .closed) (hsend : s.senderSome = false)
    (hop : op.isRecovery = false) :
    (applyOp s op).state = .closed ∧ (applyOp s op).senderSome = false := by
  cases op with
  | send data hasReceivers now =>
      have heq : applyOp s (.send data hasReceivers now) = s := by
        simp [applyOp, send, hsend]
      rw [heq]
      exact ⟨hst, hsend⟩
  | sendWithBackpressure data hasReceivers now =>
      cases hp : AdaptiveBuffer.push s.buffer data with
      | ok b =>
          have heq : applyOp s (.sendWithBackpressure data hasReceivers now) =
              { s with buffer := b } := by
            simp [applyOp, sendWithBackpressure, send, hsend, hp]
          rw [heq]
          exact ⟨hst, hsend⟩
      | error e =>
          have heq : applyOp s (.sendWithBackpressure data hasReceivers now) = s := by
            simp [applyOp, sendWithBackpressure, send, hsend, hp]
          rw [heq]
          exact ⟨hst, hsend⟩
  | subscribe => exact ⟨hst, hsend⟩
  | close => exact ⟨rfl, rfl⟩
  | initiateRecovery now => simp [Op.isRecovery] at hop

theorem applyOps_closed {s : ChanState α} {ops : List (Op α)}
    (hst : s.state = .closed) (hsend : s.senderSome = false)
    (hops : ∀ op ∈ ops, op.isRecovery = false) :
    (applyOps s ops).state = .closed ∧ (applyOps s ops).senderSome = false := by
  induction ops generalizing s with
  | nil => exact ⟨hst, hsend⟩
  | cons op rest ih =>
      have h1 := applyOp_closed hst hsend (hops op (by simp))
      exact ih h1.1 h1.2 (fun o ho => hops o (by simp [ho]))

end ManagedChannel

/-- C2 amended: `Closed` is terminal for every operation except
`initiate_recovery` — after `close()`, any sequence of operations not
containing `initiate_recovery` leaves the channel `Closed` and sender-less,
and `send` on the resulting channel fails with "Channel is closed";
`initiate_recovery`, whenever the health monitor's backoff allows it,
moves the channel (from `Closed` like from any other state) to `Active`
(shown by the counterexample). -/
theorem C2_amended (s : ChanState Unit) (ops : List (ManagedChannel.Op Unit))
    (hops : ∀ op ∈ ops, op.isRecovery = false) :
    (ManagedChannel.applyOps (ManagedChannel.close s) ops).state = .closed ∧
    ∀ (hasReceivers : Bool) (now : Nat),
      ManagedChannel.send (ManagedChannel.applyOps (ManagedChannel.close s) ops)
          () hasReceivers now = .error "Channel is closed" := by
  have h : (ManagedChannel.applyOps (ManagedChannel.close s) ops).state = .closed ∧
      (ManagedChannel.applyOps (ManagedChannel.close s) ops).senderSome = false :=
    ManagedChannel.applyOps_closed rfl rfl hops
  refine ⟨h.1, fun hasReceivers now => ?_⟩
  simp [ManagedChannel.send, h.2]

/-- C2 amended, witnessed on a fresh channel with a send, a subscribe and a
second close after the close. -/
theorem C2_amended_witness :
    (ManagedChannel.applyOps (ManagedChannel.close (ManagedChannel.new Unit 4 0))
        [ManagedChannel.Op.subscribe, ManagedChannel.Op.send () true 7,
          ManagedChannel.Op.close]).state = .closed ∧
    ManagedChannel.send (ManagedChannel.applyOps
        (ManagedChannel.close (ManagedChannel.new Unit 4 0))
        [ManagedChannel.Op.subscribe, ManagedChannel.Op.send () true 7,
          ManagedChannel.Op.close]) () true 9 = .error "Channel is closed" := by
  have h := C2_amended (ManagedChannel.new Unit 4 0)
    [ManagedChannel.Op.subscribe, ManagedChannel.Op.send () true 7,
      ManagedChannel.Op.close] (by decide)
  exact ⟨h.1, h.2 true 9⟩

/-! ## Error core (`audio/error.rs`) -/

/-- `ChannelErrorType` from `error.rs`. -/
inductive ChannelErrorType
  | closed
  | full
  | sendFailed
  | receiveFailed
  | recovery
deriving DecidableEq

/-- `AudioError` from `error.rs`. -/
inductive AudioError
  | device (message : String) (recoverable : Bool)
  | channel (message : String) (errorType : ChannelErrorType)
  | buffer (message : String) (bufferType : String)
  | vadProcessing (message : String) (samplesLost : Nat)
  | transcription (message : String) (chunkId : Nat)
  | recovery (message : String) (attempts : Nat)
  | configuration (message : String) (field : String)
  | resourceExhaustion (message : String) (resourceType : String)
  | timeout (message : String) (durationMs : Nat)
  | system (message : String) (code : Option Int)
  | processing (message : String) (context : Option String)
deriving DecidableEq

/-- `ErrorRecoveryStrategy` from `error.rs`. -/
inductive ErrorRecoveryStrategy
  | retry (maxAttempts : Nat) (baseDelayMs : Nat)
  | graceful (fallbackEnabled : Bool)
  | stop
  | restart
  | escalate
deriving DecidableEq

/-- `ErrorRecoveryAction` from `error.rs`. -/
inductive ErrorRecoveryAction
  | retry (delayMs : Nat) (attempt : Nat)
  | backoff (delayMs : Nat) (attempt : Nat)
  | reset
  | ignore
  | stop
  | restart
  | escalate
  | cont (withDegradation : Bool) (fallbackEnabled : Bool)
deriving DecidableEq

/-- The part of `ErrorContext` that `handle_error` consults. -/
structure ErrorContext where
  component : String
  operation : String
  timestamp : Nat
deriving DecidableEq

/-- The state of an `ErrorHandler`: per-component error counters, the
per-component strategy table, the bounded history (callbacks are external
observers and not modelled). -/
structure ErrorHandlerState where
  errorCounts : List (String × Nat)
  recoveryStrategies : List (String × ErrorRecoveryStrategy)
  maxErrorHistory : Nat
  errorHistory : List (AudioError × ErrorContext)
deriving DecidableEq

namespace ErrorHandler

/-- `ErrorHandler::new` with its default strategy table. -/
def new : ErrorHandlerState :=
  { errorCounts := []
    recoveryStrategies :=
      [("device", .retry 3 1000),
       ("channel", .retry 5 500),
       ("buffer", .graceful true),
       ("vad", .graceful true),
       ("transcription", .retry 2 2000)]
    maxErrorHistory := 1000
    errorHistory := [] }

/-- `get_error_count`: the component's counter, defaulting to 0. -/
def getErrorCount (st : ErrorHandlerState) (component : String) : Nat :=
  (st.errorCounts.lookup component).getD 0

/-- The `entry(..).or_insert(0)` + `fetch_add(1)` of `increment_error_count`
on the association list. -/
def bumpCount : List (String × Nat) → String → List (String × Nat)
  | [], component => [(component, 1)]
  | (k, v) :: rest, component =>
      if k = component then (k, v + 1) :: rest
      else (k, v) :: bumpCount rest component

/-- `increment_error_count`. -/
def incrementErrorCount (st : ErrorHandlerState) (component : String) :
    ErrorHandlerState :=
  { st with errorCounts := bumpCount st.errorCounts component }

/-- `get_recovery_strategy`: the component's strategy, defaulting to
`Graceful { fallback_enabled: false }`. -/
def getRecoveryStrategy (st : ErrorHandlerState) (component : String) :
    ErrorRecoveryStrategy :=
  (st.recoveryStrategies.lookup component).getD (.graceful false)

/-- `store_error_history`: append and trim the front down to
`max_error_history`. -/
def storeErrorHistory (st : ErrorHandlerState) (e : AudioError)
    (ctx : ErrorContext) : ErrorHandlerState :=
  { st with errorHistory := capFront st.maxErrorHistory (st.errorHistory ++ [(e, ctx)]) }

/-- `execute_recovery`: for `Retry`, return a retry whose delay doubles with
the (already incremented) error count, capped at `2^10`, or `Escalate` once
the count exceeds `max_attempts`; `Graceful` yields
`Continue { with_degradation: true, fallback_enabled }`. -/
def executeRecovery (st : ErrorHandlerState) (ctx : ErrorContext)
    (strategy : ErrorRecoveryStrategy) : ErrorRecoveryAction :=
  match strategy with
  | .retry maxAttempts baseDelayMs =>
      let errorCount := getErrorCount st ctx.component
      if errorCount ≤ maxAttempts then
        .retry (baseDelayMs * 2 ^ min errorCount 10) errorCount
      else .escalate
  | .graceful fallbackEnabled => .cont true fallbackEnabled
  | .stop => .stop
  | .restart => .restart
  | .escalate => .escalate

/-- `ErrorHandler::handle_error`: log (ignored), store history, bump the
component's counter, resolve the strategy and execute recovery. -/
def handleError (st : ErrorHandlerState) (e : AudioError) (ctx : ErrorContext) :
    ErrorRecoveryAction × ErrorHandlerState :=
  let st1 := storeErrorHistory st e ctx
  let st2 := incrementErrorCount st1 ctx.component
  let strategy := getRecoveryStrategy st2 ctx.component
  (executeRecovery st2 ctx strategy, st2)

theorem lookup_bumpCount (l : List (String × Nat)) (component : String) :
    (bumpCount l component).lookup component =
      some ((l.lookup component).getD 0 + 1) := by
  induction l with
  | nil => simp [bumpCount]
  | cons kv rest ih =>
      obtain ⟨k, v⟩ := kv
      by_cases hk : k = component
      · subst hk
        simp [bumpCount, List.lookup]
      · have hbeq : (component == k) = false := by
          simp [beq_eq_false_iff_ne]
          exact Ne.symm hk
        simp [bumpCount, hk, List.lookup, ih, hbeq]

theorem getErrorCount_increment (st : ErrorHandlerState) (component : String) :
    getErrorCount (incrementErrorCount st component) component =
      getErrorCount st component + 1 := by
  simp [getErrorCount, incrementErrorCount, lookup_bumpCount]

end ErrorHandler

/-- C9: `handle_error` with a `Retry { max_attempts, base_delay_ms }`
strategy returns a retry with delay `base × 2^min(count, 10)` — `count`
being the component's error count after the increment for this error —
as long as `count ≤ max_attempts`, and `Escalate` once `count > max_attempts`;
with a `Graceful { fallback_enabled }` strategy it returns
`Continue { with_degradation: true, fallback_enabled }`. -/
theorem C9_error_recovery (st : ErrorHandlerState) (e : AudioError)
    (ctx : ErrorContext) :
    (∀ maxAttempts baseDelayMs,
      ErrorHandler.getRecoveryStrategy st ctx.component =
          .retry maxAttempts baseDelayMs →
      (ErrorHandler.handleError st e ctx).1 =
        (if ErrorHandler.getErrorCount st ctx.component + 1 ≤ maxAttempts then
          .retry (baseDelayMs * 2 ^ min (ErrorHandler.getErrorCount st ctx.component + 1) 10)
            (ErrorHandler.getErrorCount st ctx.component + 1)
        else .escalate)) ∧
    (∀ fallbackEnabled,
      ErrorHandler.getRecoveryStrategy st ctx.component = .graceful fallbackEnabled →
      (ErrorHandler.handleError st e ctx).1 = .cont true fallbackEnabled) := by
  have hstrat : ∀ st1 : ErrorHandlerState,
      st1.recoveryStrategies = st.recoveryStrategies →
      ErrorHandler.getRecoveryStrategy st1 ctx.component =
        ErrorHandler.getRecoveryStrategy st ctx.component := by
    intro st1 h
    simp [ErrorHandler.getRecoveryStrategy, h]
  have hcount :
      ErrorHandler.getErrorCount
        (ErrorHandler.incrementErrorCount (ErrorHandler.storeErrorHistory st e ctx)
          ctx.component) ctx.component =
        ErrorHandler.getErrorCount st ctx.component + 1 := by
    rw [ErrorHandler.getErrorCount_increment]
    simp [ErrorHandler.getErrorCount, ErrorHandler.storeErrorHistory]
  constructor
  · intro maxAttempts baseDelayMs hs
    simp only [ErrorHandler.handleError, ErrorHandler.executeRecovery]
    rw [hstrat _ (by simp [ErrorHandler.incrementErrorCount,
      ErrorHandler.storeErrorHistory]), hs]
    simp only [hcount]
  · intro fallbackEnabled hs
    simp only [ErrorHandler.handleError, ErrorHandler.executeRecovery]
    rw [hstrat _ (by simp [ErrorHandler.incrementErrorCount,
      ErrorHandler.storeErrorHistory]), hs]

/-- C9 witnessed on the default handler: the first "device" error yields a
retry with delay `1000 × 2¹ = 2000` and attempt 1; a "vad" error yields
`Continue { with_degradation: true, fallback_enabled: true }`. -/
theorem C9_error_recovery_witness :
    (ErrorHandler.handleError ErrorHandler.new
        (AudioError.device "Device disconnected" true)
        ⟨"device", "connect", 0⟩).1 = .retry 2000 1 ∧
    (ErrorHandler.handleError ErrorHandler.new
        (AudioError.vadProcessing "failed" 480)
        ⟨"vad", "process_frame", 0⟩).1 = .cont true true := by
  constructor
  · have h := (C9_error_recovery ErrorHandler.new
      (AudioError.device "Device disconnected" true) ⟨"device", "connect", 0⟩).1
      3 1000 (by decide)
    rw [h]
    decide
  · exact (C9_error_recovery ErrorHandler.new
      (AudioError.vadProcessing "failed" 480) ⟨"vad", "process_frame", 0⟩).2
      true (by decide)

/-! ## Streaming VAD result types (`audio/streaming_vad.rs`)

`f32` samples and confidences are modelled as rationals. -/

/-- `BoundaryInfo` from `streaming_vad.rs`. -/
structure BoundaryInfo where
  sentenceBoundaries : List Nat
  wordBoundaries : List Nat
  isCompleteUtterance : Bool
  confidence : ℚ
  speechProbability : ℚ
deriving DecidableEq

/-- `StreamingResult` from `streaming_vad.rs`. -/
structure StreamingResult where
  speechSegments : List (List ℚ)
  isSpeaking : Bool
  confidence : ℚ
  boundaryInfo : BoundaryInfo
  noiseFloor : ℚ
  energyLevel : ℚ
deriving DecidableEq

/-! ## Intelligent chunker (`audio/intelligent_chunking.rs`) -/

/-- `ChunkingConfig` from `intelligent_chunking.rs`. -/
structure ChunkingConfig where
  minChunkDurationMs : Nat
  maxChunkDurationMs : Nat
  targetChunkDurationMs : Nat
  sampleRate : Nat
  overlapDurationMs : Nat
  silenceThreshold : ℚ
  boundaryConfidenceThreshold : ℚ
  forceChunkOnSilenceMs : Nat
  contextPreservationEnabled : Bool
deriving DecidableEq

/-- `BoundaryType` from `intelligent_chunking.rs`. -/
inductive BoundaryType
  | speechEnd
  | silence
  | maxDuration
  | energyDrop
  | pitchChange
  | sentenceBoundary
  | pauseBoundary
  | timeoutBoundary
  | maxDurationBoundary
  | silenceBoundary
  | manualBoundary
deriving DecidableEq

/-- `ChunkMetadata` from `intelligent_chunking.rs` (`timestamp: f64` seconds
is a rational). -/
structure ChunkMetadata where
  chunkId : Nat
  timestamp : ℚ
  durationMs : Nat
  sampleCount : Nat
  hasSpeechBoundary : Bool
  confidence : ℚ
  energyLevel : ℚ
  noiseFloor : ℚ
  contextFrames : Nat
  isSilenceForced : Bool
  boundaryType : BoundaryType
deriving DecidableEq

/-- `AudioChunk` from `intelligent_chunking.rs`. -/
structure AudioChunk where
  samples : List ℚ
  metadata : ChunkMetadata
  startTimeMs : Nat
  recordingStartTimeMs : Nat
deriving DecidableEq

/-- `ContextBuffer` from `intelligent_chunking.rs`. -/
structure ContextBuffer where
  samples : List ℚ
  maxContextSamples : Nat
  overlapSamples : Nat
deriving DecidableEq

namespace ContextBuffer

/-- `ContextBuffer::new`: the float products `duration/1000 × rate` are exact
for the configurations the program builds, so they are embedded as the
corresponding integer expressions. -/
def new (maxDurationMs overlapDurationMs sampleRate : Nat) : ContextBuffer :=
  { samples := []
    maxContextSamples := maxDurationMs * sampleRate / 1000
    overlapSamples := overlapDurationMs * sampleRate / 1000 }

/-- `ContextBuffer::add_samples`: extend, then pop the front while over
`max_context_samples`. -/
def addSamples (cb : ContextBuffer) (newSamples : List ℚ) : ContextBuffer :=
  { cb with samples := capFront cb.maxContextSamples (cb.samples ++ newSamples) }

/-- `ContextBuffer::get_context_for_new_chunk`: the last
`min(overlap_samples, len)` ring samples. -/
def getContextForNewChunk (cb : ContextBuffer) : List ℚ :=
  let overlapCount := min cb.overlapSamples cb.samples.length
  cb.samples.drop (cb.samples.length - overlapCount)

/-- `ContextBuffer::append_with_overlap`: returns `context ++ new_samples`
and the ring updated with the new samples. -/
def appendWithOverlap (cb : ContextBuffer) (newSamples : List ℚ) :
    List ℚ × ContextBuffer :=
  (cb.getContextForNewChunk ++ newSamples, cb.addSamples newSamples)

end ContextBuffer

/-- The state of an `IntelligentChunker`; the owned `StreamingVadProcessor`
is driven separately (its per-call result, or failure, is an input to
`processAudio`), and `Instant`s are `Nat` millisecond timestamps. -/
structure ChunkerState where
  config : ChunkingConfig
  contextBuffer : ContextBuffer
  currentChunk : List ℚ
  chunkStartTime : Option Nat
  lastBoundaryTime : Option Nat
  chunkIdCounter : Nat
  silenceStartTime : Option Nat
  totalProcessedSamples : Nat
deriving DecidableEq

/-- `ChunkDecision` from `intelligent_chunking.rs`. -/
inductive ChunkDecision
  | createChunk (b : BoundaryType)
  | cont
deriving DecidableEq

namespace IntelligentChunker

/-- `IntelligentChunker::new`. -/
def new (config : ChunkingConfig) : ChunkerState :=
  { config := config
    contextBuffer := ContextBuffer.new config.maxChunkDurationMs
      config.overlapDurationMs config.sampleRate
    currentChunk := []
    chunkStartTime := none
    lastBoundaryTime := none
    chunkIdCounter := 0
    silenceStartTime := none
    totalProcessedSamples := 0 }

/-- `get_current_chunk_duration_ms`: elapsed wall-clock time since the chunk
start. -/
def getCurrentChunkDurationMs (s : ChunkerState) (now : Nat) : Nat :=
  match s.chunkStartTime with
  | some startTime => now - startTime
  | none => 0

/-- `update_silence_tracking`. -/
def updateSilenceTracking (s : ChunkerState) (v : StreamingResult) (now : Nat) :
    ChunkerState :=
  let isSilent := decide (v.energyLevel < s.config.silenceThreshold) && !v.isSpeaking
  if isSilent && s.silenceStartTime.isNone then
    { s with silenceStartTime := some now }
  else if !isSilent then { s with silenceStartTime := none }
  else s

/-- The `if let Some(silence_start) = self.silence_start_time` guard of
`should_create_chunk`: the accumulated trailing silence has reached
`force_chunk_on_silence_ms`. -/
def silenceTimedOut (s : ChunkerState) (now : Nat) : Bool :=
  match s.silenceStartTime with
  | some silenceStart =>
      decide (now - silenceStart ≥ s.config.forceChunkOnSilenceMs)
  | none => false

/-- `should_create_chunk`: the ordered boundary decision. -/
def shouldCreateChunk (s : ChunkerState) (v : StreamingResult) (now : Nat) :
    ChunkDecision :=
  let currentDuration := getCurrentChunkDurationMs s now
  if currentDuration ≥ s.config.maxChunkDurationMs then
    .createChunk .maxDurationBoundary
  else if currentDuration < s.config.minChunkDurationMs then
    .cont
  else if v.boundaryInfo.isCompleteUtterance &&
      decide (v.confidence ≥ s.config.boundaryConfidenceThreshold) then
    .createChunk .sentenceBoundary
  else if silenceTimedOut s now then
    .createChunk .silenceBoundary
  else if !v.boundaryInfo.sentenceBoundaries.isEmpty &&
      decide (currentDuration ≥ s.config.targetChunkDurationMs * 2 / 3) then
    .createChunk .pauseBoundary
  else if decide (currentDuration ≥ s.config.targetChunkDurationMs) &&
      (decide (v.confidence > 2/5) || !v.isSpeaking) then
    .createChunk .timeoutBoundary
  else .cont

/-- `create_chunk`: assemble the payload (with ring overlap when context
preservation is on), build the metadata, and reset the accumulator. -/
def createChunk (s : ChunkerState) (boundaryType : BoundaryType)
    (v : StreamingResult) (recordingStartTime now : Nat) :
    Option AudioChunk × ChunkerState :=
  if s.currentChunk.isEmpty then (none, s)
  else
    let chunkId := s.chunkIdCounter
    let chunkStartTime := s.chunkStartTime.getD now
    let durationMs := now - chunkStartTime
    let timestamp : ℚ := ((now - recordingStartTime : Nat) : ℚ) / 1000
    let (finalSamples, cb1) :=
      if s.config.contextPreservationEnabled then
        s.contextBuffer.appendWithOverlap s.currentChunk
      else
        (s.currentChunk, s.contextBuffer.addSamples s.currentChunk)
    let metadata : ChunkMetadata :=
      { chunkId := chunkId
        timestamp := timestamp
        durationMs := durationMs
        sampleCount := finalSamples.length
        hasSpeechBoundary := v.boundaryInfo.isCompleteUtterance
        confidence := v.confidence
        energyLevel := v.energyLevel
        noiseFloor := v.noiseFloor
        contextFrames := cb1.samples.length
        isSilenceForced := boundaryType = .silenceBoundary
        boundaryType := boundaryType }
    let chunk : AudioChunk :=
      { samples := finalSamples
        metadata := metadata
        startTimeMs := now - chunkStartTime
        recordingStartTimeMs := now - recordingStartTime }
    (some chunk,
      { s with
          contextBuffer := cb1
          currentChunk := []
          chunkStartTime := none
          lastBoundaryTime := some now
          silenceStartTime := none
          chunkIdCounter := s.chunkIdCounter + 1 })

/-- `create_fallback_chunk`: plain duration-based chunking used when the VAD
call failed; the chunk carries `BoundaryType::TimeoutBoundary` and
confidence 0.3. -/
def createFallbackChunk (s : ChunkerState) (samples : List ℚ)
    (recordingStartTime now : Nat) : Option AudioChunk × ChunkerState :=
  let s1 := { s with currentChunk := s.currentChunk ++ samples }
  let s2 :=
    if s1.chunkStartTime.isNone then { s1 with chunkStartTime := some now }
    else s1
  let currentDuration := getCurrentChunkDurationMs s2 now
  if currentDuration ≥ s.config.targetChunkDurationMs then
    let chunkId := s2.chunkIdCounter
    let chunkStartTime := s2.chunkStartTime.getD now
    let timestamp : ℚ := ((now - recordingStartTime : Nat) : ℚ) / 1000
    let outSamples := s2.currentChunk
    let metadata : ChunkMetadata :=
      { chunkId := chunkId
        timestamp := timestamp
        durationMs := currentDuration
        sampleCount := outSamples.length
        hasSpeechBoundary := false
        confidence := 3/10
        energyLevel := (outSamples.map (fun x => x * x)).sum / (outSamples.length : ℚ)
        noiseFloor := 1/1000
        contextFrames := 0
        isSilenceForced := false
        boundaryType := .timeoutBoundary }
    let chunk : AudioChunk :=
      { samples := outSamples
        metadata := metadata
        startTimeMs := now - chunkStartTime
        recordingStartTimeMs := now - recordingStartTime }
    (some chunk,
      { s2 with
          currentChunk := []
          chunkStartTime := none
          lastBoundaryTime := some now
          silenceStartTime := none
          chunkIdCounter := s2.chunkIdCounter + 1 })
  else (none, s2)

/-- `process_audio`: accumulate the raw samples, track silence, consult
`should_create_chunk` and emit.  The VAD call's outcome is an input; a VAD
failure routes to `create_fallback_chunk` (after reporting to the error
core, which does not influence the chunker state). -/
def processAudio (s : ChunkerState) (samples : List ℚ)
    (vadOutcome : Except String StreamingResult)
    (recordingStartTime now : Nat) : Option AudioChunk × ChunkerState :=
  if samples.isEmpty then (none, s)
  else
    let s0 := { s with
      totalProcessedSamples := s.totalProcessedSamples + samples.length }
    match vadOutcome with
    | .error _ => createFallbackChunk s0 samples recordingStartTime now
    | .ok v =>
        let s1 := { s0 with currentChunk := s0.currentChunk ++ samples }
        let s2 :=
          if s1.chunkStartTime.isNone then { s1 with chunkStartTime := some now }
          else s1
        let s3 := updateSilenceTracking s2 v now
        match shouldCreateChunk s3 v now with
        | .createChunk boundaryType =>
            createChunk s3 boundaryType v recordingStartTime now
        | .cont => (none, s3)

end IntelligentChunker

/-- The spec's `BoundaryCause` enumeration (§3 of the specification). -/
inductive SpecBoundaryCause
  | sentenceBoundary
  | pauseBoundary
  | silenceTimeout
  | maxDurationTimeout
  | targetDurationWithQuietTail
  | manualFlush
  | fallback
deriving DecidableEq

/-- The correspondence between the source's `BoundaryType` values and the
spec's `BoundaryCause` names, fixed rule by rule by the spec's §4.5 decision
policy (rules 1–6) and by `force_chunk` for `ManualFlush`.  No source
variant corresponds to the spec's `Fallback`; source variants the chunker
never emits map to `none`. -/
def specCauseOf : BoundaryType → Option SpecBoundaryCause
  | .sentenceBoundary => some .sentenceBoundary
  | .pauseBoundary => some .pauseBoundary
  | .silenceBoundary => some .silenceTimeout
  | .maxDurationBoundary => some .maxDurationTimeout
  | .timeoutBoundary => some .targetDurationWithQuietTail
  | .manualBoundary => some .manualFlush
  | _ => none

/-- The spec cause emitted by a chunk decision (`none` = continue). -/
def decisionCause : ChunkDecision → Option SpecBoundaryCause
  | .createChunk b => specCauseOf b
  | .cont => none

/-- First-match evaluation of an ordered rule list: each rule is a guard
paired with its outcome (`none` = continue); a missing match continues. -/
def firstMatch : List (Bool × Option SpecBoundaryCause) → Option SpecBoundaryCause
  | [] => none
  | (guard, outcome) :: rest => if guard then outcome else firstMatch rest

/-- The spec's §4.5 decision policy, written as the ordered rule list of
claim C3 (duration and trailing silence measured exactly as the chunker
measures them). -/
def specChunkPolicy (s : ChunkerState) (v : StreamingResult) (now : Nat) :
    Option SpecBoundaryCause :=
  let duration := IntelligentChunker.getCurrentChunkDurationMs s now
  firstMatch
    [(decide (duration ≥ s.config.maxChunkDurationMs), some .maxDurationTimeout),
     (decide (duration < s.config.minChunkDurationMs), none),
     (v.boundaryInfo.isCompleteUtterance &&
        decide (v.confidence ≥ s.config.boundaryConfidenceThreshold),
      some .sentenceBoundary),
     (IntelligentChunker.silenceTimedOut s now, some .silenceTimeout),
     (!v.boundaryInfo.sentenceBoundaries.isEmpty &&
        decide (duration ≥ s.config.targetChunkDurationMs * 2 / 3),
      some .pauseBoundary),
     (decide (duration ≥ s.config.targetChunkDurationMs) &&
        (decide (v.confidence > 2/5) || !v.isSpeaking),
      some .targetDurationWithQuietTail)]

/-- C3: for every chunker state and VAD result, `should_create_chunk` is
exactly the first-match evaluation of the spec's ordered rule list
(rule 1 `MaxDurationTimeout`, rule 2 continue below `min_chunk_ms`,
rule 3 `SentenceBoundary`, rule 4 `SilenceTimeout`, rule 5 `PauseBoundary`,
rule 6 `TargetDurationWithQuietTail`, rule 7 continue). -/
theorem C3_decision_policy (s : ChunkerState) (v : StreamingResult) (now : Nat) :
    decisionCause (IntelligentChunker.shouldCreateChunk s v now) =
      specChunkPolicy s v now := by
  by_cases h1 : IntelligentChunker.getCurrentChunkDurationMs s now ≥
      s.config.maxChunkDurationMs <;>
    by_cases h2 : IntelligentChunker.getCurrentChunkDurationMs s now <
      s.config.minChunkDurationMs <;>
    by_cases h3 : (v.boundaryInfo.isCompleteUtterance &&
      decide (v.confidence ≥ s.config.boundaryConfidenceThreshold)) = true <;>
    by_cases h4 : IntelligentChunker.silenceTimedOut s now = true <;>
    by_cases h5 : (!v.boundaryInfo.sentenceBoundaries.isEmpty &&
      decide (IntelligentChunker.getCurrentChunkDurationMs s now ≥
        s.config.targetChunkDurationMs * 2 / 3)) = true <;>
    by_cases h6 : (decide (IntelligentChunker.getCurrentChunkDurationMs s now ≥
      s.config.targetChunkDurationMs) &&
      (decide (v.confidence > 2/5) || !v.isSpeaking)) = true <;>
    simp [IntelligentChunker.shouldCreateChunk, specChunkPolicy, firstMatch,
      decisionCause, specCauseOf, h1, h2, h3, h4, h5, h6]

namespace IntelligentChunker

theorem getContextForNewChunk_length (cb : ContextBuffer) :
    cb.getContextForNewChunk.length = min cb.overlapSamples cb.samples.length := by
  simp [ContextBuffer.getContextForNewChunk]
  omega

/-- `update_silence_tracking` only touches `silence_start_time`. -/
theorem updateSilenceTracking_fields (s : ChunkerState) (v : StreamingResult)
    (now : Nat) :
    (updateSilenceTracking s v now).config = s.config ∧
    (updateSilenceTracking s v now).contextBuffer = s.contextBuffer ∧
    (updateSilenceTracking s v now).currentChunk = s.currentChunk ∧
    (updateSilenceTracking s v now).chunkStartTime = s.chunkStartTime := by
  unfold updateSilenceTracking
  dsimp only
  split_ifs <;> exact ⟨rfl, rfl, rfl, rfl⟩

/-- The payload assembled by `create_chunk` is the ring overlap (when
context preservation is on) followed by the accumulated samples, and the
recorded duration is the wall-clock time since the chunk start. -/
theorem createChunk_spec (s : ChunkerState) (boundaryType : BoundaryType)
    (v : StreamingResult) (recordingStartTime now : Nat) (c : AudioChunk)
    (h : (createChunk s boundaryType v recordingStartTime now).1 = some c) :
    c.samples.length =
      (if s.config.contextPreservationEnabled then
        min s.contextBuffer.overlapSamples s.contextBuffer.samples.length
      else 0) + s.currentChunk.length ∧
    c.metadata.durationMs = now - s.chunkStartTime.getD now := by
  unfold createChunk at h
  by_cases hne : s.currentChunk.isEmpty
  · simp [hne] at h
  · by_cases hctx : s.config.contextPreservationEnabled
    · simp only [hne, Bool.false_eq_true, if_false, hctx, if_true,
        ContextBuffer.appendWithOverlap] at h
      obtain rfl := (Option.some.inj h).symm
      refine ⟨?_, rfl⟩
      simp only [List.length_append, getContextForNewChunk_length, hctx, if_true]
    · simp only [hne, Bool.false_eq_true, if_false, hctx, if_false] at h
      obtain rfl := (Option.some.inj h).symm
      exact ⟨by simp [hctx], rfl⟩

end IntelligentChunker

/-- Claim C5 as stated: every chunk emitted by `process_audio` has payload
length `duration_ms × sample_rate / 1000` plus the number of prepended
overlap samples (which is at most `overlap_samples`, limited by the ring's
current content). -/
def C5Stated : Prop :=
  ∀ (s : ChunkerState) (samples : List ℚ)
    (vadOutcome : Except String StreamingResult)
    (recordingStartTime now : Nat) (c : AudioChunk),
    (IntelligentChunker.processAudio s samples vadOutcome
      recordingStartTime now).1 = some c →
    ∃ overlap,
      overlap ≤ min s.contextBuffer.overlapSamples s.contextBuffer.samples.length ∧
      c.samples.length =
        c.metadata.durationMs * s.config.sampleRate / 1000 + overlap

/-- The configuration of the C5 counterexample run (`min_chunk_ms = 0`,
no overlap, context preservation on). -/
def c5Config : ChunkingConfig :=
  { minChunkDurationMs := 0
    maxChunkDurationMs := 30000
    targetChunkDurationMs := 15000
    sampleRate := 16000
    overlapDurationMs := 0
    silenceThreshold := 0
    boundaryConfidenceThreshold := 1
    forceChunkOnSilenceMs := 8000
    contextPreservationEnabled := true }

/-- A VAD result reporting a confident complete utterance. -/
def c5Vad : StreamingResult :=
  { speechSegments := []
    isSpeaking := true
    confidence := 1
    boundaryInfo :=
      { sentenceBoundaries := []
        wordBoundaries := []
        isCompleteUtterance := true
        confidence := 1
        speechProbability := 1 }
    noiseFloor := 0
    energyLevel := 1 }

/-- The chunk that `process_audio` emits in the C5 counterexample run:
feeding 16 samples to a fresh chunker in a single call at time 0, with the
VAD reporting a confident complete utterance. -/
def c5Emitted : AudioChunk :=
  (IntelligentChunker.processAudio (IntelligentChunker.new c5Config)
    (List.replicate 16 0) (.ok c5Vad) 0 0).1.get (by decide)

/-- C5 counterexample: the run behind `c5Emitted` emits a chunk with 16
payload samples, but its recorded `duration_ms` — wall-clock time since the
chunk start — is 0, so `duration × sample_rate / 1000 + overlap = 0 ≠ 16`. -/
theorem C5_counterexample : ¬ C5Stated := by
  intro h
  obtain ⟨overlap, hle, heq⟩ := h (IntelligentChunker.new c5Config)
    (List.replicate 16 0) (.ok c5Vad) 0 0 c5Emitted
    (Option.some_get (by decide)).symm
  rw [show min (IntelligentChunker.new c5Config).contextBuffer.overlapSamples
      (IntelligentChunker.new c5Config).contextBuffer.samples.length = 0
    from by decide] at hle
  rw [show c5Emitted.samples.length = 16 from by decide,
    show c5Emitted.metadata.durationMs = 0 from by decide,
    show (IntelligentChunker.new c5Config).config.sampleRate = 16000
    from by decide] at heq
  omega

/-- C5 amended: the payload of every chunk that `process_audio` emits is the
accumulated samples (the previous accumulator plus this call's samples)
prefixed, when context preservation is enabled and the VAD succeeded, by
`min(overlap_samples, ring_len)` ring samples; the `duration_ms` metadata is
the wall-clock time since the chunk start and is not tied to the payload
length. -/
theorem C5_amended (s : ChunkerState) (samples : List ℚ)
    (recordingStartTime now : Nat) (c : AudioChunk) :
    (∀ v : StreamingResult,
      (IntelligentChunker.processAudio s samples (.ok v)
        recordingStartTime now).1 = some c →
      c.samples.length =
        (if s.config.contextPreservationEnabled then
          min s.contextBuffer.overlapSamples s.contextBuffer.samples.length
        else 0) + s.currentChunk.length + samples.length ∧
      c.metadata.durationMs = now - s.chunkStartTime.getD now) ∧
    (∀ e : String,
      (IntelligentChunker.processAudio s samples (.error e)
        recordingStartTime now).1 = some c →
      c.samples.length = s.currentChunk.length + samples.length) := by
  constructor
  · intro v h
    unfold IntelligentChunker.processAudio at h
    by_cases hse : samples.isEmpty
    · simp [hse] at h
    · simp only [hse, Bool.false_eq_true, if_false] at h
      set s1 : ChunkerState := { s with
        totalProcessedSamples := s.totalProcessedSamples + samples.length,
        currentChunk := s.currentChunk ++ samples } with hs1
      set s2 : ChunkerState :=
        if s1.chunkStartTime.isNone then { s1 with chunkStartTime := some now }
        else s1 with hs2
      set s3 := IntelligentChunker.updateSilenceTracking s2 v now with hs3
      have hfields := IntelligentChunker.updateSilenceTracking_fields s2 v now
      have hcfg : s3.config = s.config := by
        rw [hfields.1, hs2]
        split_ifs <;> rfl
      have hcb : s3.contextBuffer = s.contextBuffer := by
        rw [hfields.2.1, hs2]
        split_ifs <;> rfl
      have hcc : s3.currentChunk = s.currentChunk ++ samples := by
        rw [hfields.2.2.1, hs2]
        split_ifs <;> rfl
      have hstart : s3.chunkStartTime.getD now = s.chunkStartTime.getD now := by
        rw [hfields.2.2.2, hs2]
        by_cases hn : s1.chunkStartTime.isNone
        · have : s.chunkStartTime = none := by
            cases hc : s.chunkStartTime with
            | none => rfl
            | some t => rw [hs1] at hn; simp [hc] at hn
          simp [hn, this]
        · simp [hn]
      cases hdec : IntelligentChunker.shouldCreateChunk s3 v now with
      | cont => rw [hdec] at h; exact absurd h (by simp)
      | createChunk boundaryType =>
          rw [hdec] at h
          have hc := IntelligentChunker.createChunk_spec s3 boundaryType v
            recordingStartTime now c h
          rw [hcfg, hcb, hcc, hstart] at hc
          refine ⟨?_, hc.2⟩
          rw [hc.1]
          simp [Nat.add_assoc]
  · intro e h
    unfold IntelligentChunker.processAudio IntelligentChunker.createFallbackChunk at h
    by_cases hse : samples.isEmpty
    · simp [hse] at h
    · simp only [hse, Bool.false_eq_true, if_false] at h
      split_ifs at h with h1 h2 h3
      all_goals try dsimp only at h
      all_goals (obtain rfl := (Option.some.inj h).symm; simp)

namespace IntelligentChunker

/-- What `create_fallback_chunk` does: at or above `target_chunk_ms` of
wall-clock accumulation it emits the accumulated samples as a chunk with
`BoundaryType::TimeoutBoundary` and confidence 0.3, below it it only
accumulates. -/
theorem createFallbackChunk_spec (s : ChunkerState) (samples : List ℚ)
    (recordingStartTime now : Nat) :
    (getCurrentChunkDurationMs s now ≥ s.config.targetChunkDurationMs →
      ∃ c, (createFallbackChunk s samples recordingStartTime now).1 = some c ∧
        c.metadata.boundaryType = .timeoutBoundary ∧
        c.metadata.confidence = 3/10 ∧
        c.samples = s.currentChunk ++ samples) ∧
    (getCurrentChunkDurationMs s now < s.config.targetChunkDurationMs →
      (createFallbackChunk s samples recordingStartTime now).1 = none ∧
      (createFallbackChunk s samples recordingStartTime now).2.currentChunk =
        s.currentChunk ++ samples) := by
  unfold createFallbackChunk
  dsimp only
  constructor
  · intro hge
    cases hst : s.chunkStartTime with
    | none =>
        have h0 : getCurrentChunkDurationMs s now = 0 := by
          simp [getCurrentChunkDurationMs, hst]
        rw [h0] at hge
        simp only [Option.isNone_none, eq_self_iff_true, if_true]
        rw [show getCurrentChunkDurationMs { s with
            currentChunk := s.currentChunk ++ samples,
            chunkStartTime := some now } now = 0 from by
          simp [getCurrentChunkDurationMs]]
        rw [if_pos hge]
        exact ⟨_, rfl, rfl, rfl, rfl⟩
    | some u =>
        have h0 : getCurrentChunkDurationMs s now = now - u := by
          simp [getCurrentChunkDurationMs, hst]
        rw [h0] at hge
        simp only [Option.isNone_some, Bool.false_eq_true, if_false]
        rw [show getCurrentChunkDurationMs { s with
            currentChunk := s.currentChunk ++ samples,
            chunkStartTime := some u } now = now - u from by
          simp [getCurrentChunkDurationMs]]
        rw [if_pos hge]
        exact ⟨_, rfl, rfl, rfl, rfl⟩
  · intro hlt
    cases hst : s.chunkStartTime with
    | none =>
        have h0 : getCurrentChunkDurationMs s now = 0 := by
          simp [getCurrentChunkDurationMs, hst]
        rw [h0] at hlt
        simp only [Option.isNone_none, eq_self_iff_true, if_true]
        rw [show getCurrentChunkDurationMs { s with
            currentChunk := s.currentChunk ++ samples,
            chunkStartTime := some now } now = 0 from by
          simp [getCurrentChunkDurationMs]]
        rw [if_neg (by omega)]
        exact ⟨rfl, rfl⟩
    | some u =>
        have h0 : getCurrentChunkDurationMs s now = now - u := by
          simp [getCurrentChunkDurationMs, hst]
        rw [h0] at hlt
        simp only [Option.isNone_some, Bool.false_eq_true, if_false]
        rw [show getCurrentChunkDurationMs { s with
            currentChunk := s.currentChunk ++ samples,
            chunkStartTime := some u } now = now - u from by
          simp [getCurrentChunkDurationMs]]
        rw [if_neg (by omega)]
        exact ⟨rfl, rfl⟩

end IntelligentChunker

/-- Claim C8 as stated: on a failed VAD call the chunker appends the samples
to the accumulator; at `target_chunk_ms` of accumulated duration it emits a
chunk whose boundary cause is the spec's `Fallback` with confidence 0.3,
below it no chunk is emitted.  "Boundary cause is `Fallback`" is read
through `specCauseOf`, the source-to-spec cause correspondence that the
spec's own decision policy fixes rule by rule; `fallbackCause_collision`
below shows the refutation does not depend on that particular choice. -/
def C8Stated : Prop :=
  ∀ (s : ChunkerState) (samples : List ℚ) (e : String) (rs now : Nat),
    samples.isEmpty = false →
    (IntelligentChunker.getCurrentChunkDurationMs s now ≥
        s.config.targetChunkDurationMs →
      ∃ c, (IntelligentChunker.processAudio s samples (.error e) rs now).1 = some c ∧
        specCauseOf c.metadata.boundaryType = some SpecBoundaryCause.fallback ∧
        c.metadata.confidence = 3/10) ∧
    (IntelligentChunker.getCurrentChunkDurationMs s now <
        s.config.targetChunkDurationMs →
      (IntelligentChunker.processAudio s samples (.error e) rs now).1 = none ∧
      (IntelligentChunker.processAudio s samples (.error e) rs now).2.currentChunk =
        s.currentChunk ++ samples)

/-- The configuration of the C8 runs. -/
def c8Config : ChunkingConfig :=
  { minChunkDurationMs := 3000
    maxChunkDurationMs := 30000
    targetChunkDurationMs := 15000
    sampleRate := 16000
    overlapDurationMs := 500
    silenceThreshold := 0
    boundaryConfidenceThreshold := 1
    forceChunkOnSilenceMs := 8000
    contextPreservationEnabled := true }

/-- The chunker state after one failed-VAD call at time 0 on a fresh
chunker: four samples accumulated, chunk start at 0, nothing emitted. -/
def c8Mid : ChunkerState :=
  (IntelligentChunker.processAudio (IntelligentChunker.new c8Config)
    (List.replicate 4 1) (.error "vad failed") 0 0).2

/-- The chunk emitted by a second failed-VAD call at time 15000 ms, when the
accumulated wall-clock duration has reached `target_chunk_ms`. -/
def c8Emitted : AudioChunk :=
  (IntelligentChunker.processAudio c8Mid (List.replicate 4 1)
    (.error "vad failed") 0 15000).1.get (by decide)

/-- C8 counterexample: the fallback chunk emitted in the `c8Emitted` run
carries `BoundaryType::TimeoutBoundary`, whose spec-level cause is
`TargetDurationWithQuietTail` (the rule-6 cause) — not the distinct
`Fallback` cause the claim names; the source enumeration has no `Fallback`
variant at all. -/
theorem C8_counterexample : ¬ C8Stated := by
  intro h
  obtain ⟨c, hc, hcause, hconf⟩ :=
    (h c8Mid (List.replicate 4 1) "vad failed" 0 15000 (by decide)).1 (by decide)
  rw [show (IntelligentChunker.processAudio c8Mid (List.replicate 4 1)
      (.error "vad failed") 0 15000).1 = some c8Emitted
    from (Option.some_get (by decide)).symm] at hc
  obtain rfl := (Option.some.inj hc)
  exact absurd hcause (by decide)

/-- The C8 refutation is independent of the chosen source-to-spec cause
correspondence: under any naming `g` of the source's `BoundaryType` values
by spec causes that gives decision rule 6's emitted variant its spec name
`TargetDurationWithQuietTail` (the assignment the spec's §4.5 policy itself
fixes), the chunk the fallback path emits cannot be named `Fallback` — it
carries that very same variant, `BoundaryType::TimeoutBoundary`. -/
theorem fallbackCause_collision
    (g : BoundaryType → Option SpecBoundaryCause)
    (hg : g BoundaryType.timeoutBoundary =
      some SpecBoundaryCause.targetDurationWithQuietTail) :
    ¬ g c8Emitted.metadata.boundaryType = some SpecBoundaryCause.fallback := by
  rw [show c8Emitted.metadata.boundaryType = BoundaryType.timeoutBoundary
    from by decide, hg]
  decide

/-- C8 amended: on a failed VAD call the chunker appends the incoming
samples directly to the accumulator; once the accumulated wall-clock
duration reaches `target_chunk_ms` it emits the accumulated samples as a
chunk with confidence 0.3 whose boundary variant is
`BoundaryType::TimeoutBoundary` — the same variant rule 6
(`TargetDurationWithQuietTail`) uses, there being no distinct `Fallback`
cause; below `target_chunk_ms` no chunk is emitted. -/
theorem C8_amended (s : ChunkerState) (samples : List ℚ) (e : String)
    (rs now : Nat) (hne : samples.isEmpty = false) :
    (IntelligentChunker.getCurrentChunkDurationMs s now ≥
        s.config.targetChunkDurationMs →
      ∃ c, (IntelligentChunker.processAudio s samples (.error e) rs now).1 = some c ∧
        c.metadata.boundaryType = BoundaryType.timeoutBoundary ∧
        c.metadata.confidence = 3/10 ∧
        c.samples = s.currentChunk ++ samples) ∧
    (IntelligentChunker.getCurrentChunkDurationMs s now <
        s.config.targetChunkDurationMs →
      (IntelligentChunker.processAudio s samples (.error e) rs now).1 = none ∧
      (IntelligentChunker.processAudio s samples (.error e) rs now).2.currentChunk =
        s.currentChunk ++ samples) := by
  have hspec := IntelligentChunker.createFallbackChunk_spec
    { s with totalProcessedSamples := s.totalProcessedSamples + samples.length }
    samples rs now
  have hproc : IntelligentChunker.processAudio s samples (.error e) rs now =
      IntelligentChunker.createFallbackChunk
        { s with totalProcessedSamples := s.totalProcessedSamples + samples.length }
        samples rs now := by
    unfold IntelligentChunker.processAudio
    rw [if_neg (by simp [hne])]
  constructor
  · intro hge
    obtain ⟨c, hc, hb, hconf, hsamp⟩ := hspec.1 hge
    exact ⟨c, by rw [hproc]; exact hc, hb, hconf, hsamp⟩
  · intro hlt
    obtain ⟨h1, h2⟩ := hspec.2 hlt
    exact ⟨by rw [hproc]; exact h1, by rw [hproc]; exact h2⟩

/-- C8 amended, witnessed on the `c8Emitted` run. -/
theorem C8_amended_witness :
    ∃ c, (IntelligentChunker.processAudio c8Mid (List.replicate 4 1)
        (.error "vad failed") 0 15000).1 = some c ∧
      c.metadata.boundaryType = BoundaryType.timeoutBoundary ∧
      c.metadata.confidence = 3/10 ∧
      c.samples = c8Mid.currentChunk ++ List.replicate 4 1 :=
  (C8_amended c8Mid (List.replicate 4 1) "vad failed" 0 15000 (by decide)).1
    (by decide)

/-- C5 amended, witnessed on the counterexample run: 16 accumulated samples,
no ring content, context preservation on — payload length `0 + 0 + 16`. -/
theorem C5_amended_witness :
    c5Emitted.samples.length =
      (if (IntelligentChunker.new c5Config).config.contextPreservationEnabled then
        min (IntelligentChunker.new c5Config).contextBuffer.overlapSamples
          (IntelligentChunker.new c5Config).contextBuffer.samples.length
      else 0) + (IntelligentChunker.new c5Config).currentChunk.length +
        (List.replicate 16 (0 : ℚ)).length ∧
    c5Emitted.metadata.durationMs =
      0 - (IntelligentChunker.new c5Config).chunkStartTime.getD 0 :=
  (C5_amended (IntelligentChunker.new c5Config) (List.replicate 16 0) 0 0
    c5Emitted).1 c5Vad (Option.some_get (by decide)).symm

/-! ## Streaming ASR driver (`audio/streaming_whisper.rs`) -/

/-- `TemperatureScheduler` from `streaming_whisper.rs`. -/
structure TemperatureScheduler where
  baseTemperature : ℚ
  increment : ℚ
  maxTemperature : ℚ
  currentRetry : Nat
deriving DecidableEq

namespace TemperatureScheduler

/-- `TemperatureScheduler::new`. -/
def new (base increment max : ℚ) : TemperatureScheduler :=
  { baseTemperature := base
    increment := increment
    maxTemperature := max
    currentRetry := 0 }

/-- `get_temperature`: `min(base + current_retry × increment, max)`. -/
def getTemperature (t : TemperatureScheduler) : ℚ :=
  min (t.baseTemperature + (t.currentRetry : ℚ) * t.increment) t.maxTemperature

/-- `next_retry` (the returned temperature is discarded by the caller). -/
def nextRetry (t : TemperatureScheduler) : TemperatureScheduler :=
  { t with currentRetry := t.currentRetry + 1 }

end TemperatureScheduler

/-- `TranscriptionSegment` from `streaming_whisper.rs` (times in ms). -/
structure TranscriptionSegment where
  text : String
  startMs : ℚ
  endMs : ℚ
  confidence : ℚ
deriving DecidableEq

/-- `TranscriptionAttemptResult` from `streaming_whisper.rs`. -/
structure TranscriptionAttemptResult where
  text : String
  confidence : ℚ
  segments : List TranscriptionSegment
deriving DecidableEq

/-- `StreamingTranscriptionResult` from `streaming_whisper.rs`. -/
structure StreamingTranscriptionResult where
  text : String
  confidence : ℚ
  processingTimeMs : Nat
  retryCount : Nat
  temperatureUsed : ℚ
  boundaryType : BoundaryType
  hasContext : Bool
  segmentTimestamps : List TranscriptionSegment
deriving DecidableEq

/-- The configuration fields of `StreamingWhisperConfig` that drive the
retry loop of `transcribe_chunk`. -/
structure TranscribeConfig where
  maxRetries : Nat
  baseTemperature : ℚ
  temperatureIncrement : ℚ
  maxTemperature : ℚ
  maxProcessingTimeMs : Nat
deriving DecidableEq

namespace StreamingWhisper

/-- The `for retry in 0..=max_retries` loop of `transcribe_chunk`.  The
engine call (`perform_transcription` at the attempt's temperature) is the
input `engine`; `elapsed n` is the wall-clock time elapsed after attempt `n`
(`chunk_start_time.elapsed()`); `fuel` counts the remaining loop iterations
(`max_retries + 1 - retry`). -/
def transcribeGo (cfg : TranscribeConfig)
    (engine : ℚ → Except String TranscriptionAttemptResult)
    (elapsed : Nat → Nat) (boundaryType : BoundaryType) (hasContext : Bool) :
    Nat → Nat → TemperatureScheduler → Option String →
    Except String StreamingTranscriptionResult
  | _, 0, _, lastError => .error (lastError.getD "Transcription failed")
  | retry, fuel + 1, sched, _ =>
      let temperature := sched.getTemperature
      match engine temperature with
      | .ok result =>
          .ok { text := result.text
                confidence := result.confidence
                processingTimeMs := elapsed retry
                retryCount := retry
                temperatureUsed := temperature
                boundaryType := boundaryType
                hasContext := hasContext
                segmentTimestamps := result.segments }
      | .error err =>
          let sched1 := if retry < cfg.maxRetries then sched.nextRetry else sched
          if elapsed retry > cfg.maxProcessingTimeMs then
            .error "Transcription timeout"
          else
            transcribeGo cfg engine elapsed boundaryType hasContext
              (retry + 1) fuel sched1 (some err)

/-- `transcribe_chunk`'s retry loop, started on a fresh scheduler. -/
def transcribeChunk (cfg : TranscribeConfig)
    (engine : ℚ → Except String TranscriptionAttemptResult)
    (elapsed : Nat → Nat) (boundaryType : BoundaryType) (hasContext : Bool) :
    Except String StreamingTranscriptionResult :=
  transcribeGo cfg engine elapsed boundaryType hasContext 0 (cfg.maxRetries + 1)
    (TemperatureScheduler.new cfg.baseTemperature cfg.temperatureIncrement
      cfg.maxTemperature) none

theorem transcribeGo_spec (cfg : TranscribeConfig)
    (engine : ℚ → Except String TranscriptionAttemptResult)
    (elapsed : Nat → Nat) (boundaryType : BoundaryType) (hasContext : Bool) :
    ∀ (fuel retry : Nat) (lastError : Option String)
      (r : StreamingTranscriptionResult),
      fuel + retry = cfg.maxRetries + 1 →
      transcribeGo cfg engine elapsed boundaryType hasContext retry fuel
        ⟨cfg.baseTemperature, cfg.temperatureIncrement, cfg.maxTemperature,
          retry⟩ lastError = .ok r →
      retry ≤ r.retryCount ∧ r.retryCount ≤ cfg.maxRetries ∧
      r.temperatureUsed =
        min (cfg.baseTemperature + (r.retryCount : ℚ) * cfg.temperatureIncrement)
          cfg.maxTemperature ∧
      (∃ res, engine r.temperatureUsed = .ok res ∧
        r.text = res.text ∧ r.confidence = res.confidence) ∧
      (∀ m, retry ≤ m → m < r.retryCount →
        ∃ err, engine (min (cfg.baseTemperature +
          (m : ℚ) * cfg.temperatureIncrement) cfg.maxTemperature) = .error err) := by
  intro fuel
  induction fuel with
  | zero =>
      intro retry lastError r hinv h
      exact absurd h (by simp [transcribeGo])
  | succ fuel ih =>
      intro retry lastError r hinv h
      rw [transcribeGo] at h
      cases heng : engine (TemperatureScheduler.getTemperature
          ⟨cfg.baseTemperature, cfg.temperatureIncrement, cfg.maxTemperature,
            retry⟩) with
      | ok res =>
          simp only [heng] at h
          obtain rfl := (Except.ok.inj h).symm
          refine ⟨le_refl _, ?_, rfl, ⟨res, ?_, rfl, rfl⟩, ?_⟩
          · show retry ≤ cfg.maxRetries
            omega
          · exact heng
          · intro m hm1 hm2
            simp only at hm1 hm2
            omega
      | error err =>
          simp only [heng] at h
          by_cases hr : retry < cfg.maxRetries
          · rw [if_pos hr] at h
            by_cases ht : elapsed retry > cfg.maxProcessingTimeMs
            · rw [if_pos ht] at h
              exact absurd h (by simp)
            · rw [if_neg ht] at h
              have hrec := ih (retry + 1) (some err) r (by omega)
                (by exact h)
              obtain ⟨h1, h2, h3, h4, h5⟩ := hrec
              refine ⟨by omega, h2, h3, h4, ?_⟩
              intro m hm1 hm2
              by_cases hme : m = retry
              · subst hme
                exact ⟨err, heng⟩
              · exact h5 m (by omega) hm2
          · have hfuel : fuel = 0 := by omega
            subst hfuel
            rw [if_neg hr] at h
            by_cases ht : elapsed retry > cfg.maxProcessingTimeMs
            · rw [if_pos ht] at h
              exact absurd h (by simp)
            · rw [if_neg ht] at h
              exact absurd h (by simp [transcribeGo])

end StreamingWhisper

/-- The retry temperature schedule of the C4 scenario:
`base = 0.0, step = 0.2, max = 0.6`, the default `max_retries = 3`. -/
def c4Config : TranscribeConfig :=
  { maxRetries := 3
    baseTemperature := 0
    temperatureIncrement := 1/5
    maxTemperature := 3/5
    maxProcessingTimeMs := 10000 }

/-- The C4 scenario engine: fails whenever the temperature is below 0.4 and
succeeds otherwise. -/
def c4Engine : ℚ → Except String TranscriptionAttemptResult :=
  fun temperature =>
    if temperature < 2/5 then .error "low temperature"
    else .ok { text := "recognized", confidence := 4/5, segments := [] }

/-- The result of the C4 scenario run. -/
def c4Result : StreamingTranscriptionResult :=
  { text := "recognized"
    confidence := 4/5
    processingTimeMs := 0
    retryCount := 2
    temperatureUsed := 2/5
    boundaryType := .manualBoundary
    hasContext := false
    segmentTimestamps := [] }

theorem c4_scenario_run :
    StreamingWhisper.transcribeChunk c4Config c4Engine (fun _ => 0)
      .manualBoundary false = .ok c4Result := by
  norm_num [StreamingWhisper.transcribeChunk, StreamingWhisper.transcribeGo,
    TemperatureScheduler.new, TemperatureScheduler.getTemperature,
    TemperatureScheduler.nextRetry, c4Config, c4Engine, c4Result,
    min_def]

/-- C4: a successful `transcribe_chunk` used temperature
`min(base + n × step, max)` at every attempt `n ≤ max_retries`, returns
`retry_count` equal to the attempt on which the engine succeeded and
`temperature_used` equal to that attempt's temperature (the engine failed at
every earlier attempt's temperature); in the scenario base 0, step 0.2,
max 0.6 with an engine failing below temperature 0.4, the result carries
`retry_count = 2`, `temperature_used = 0.4` and the engine's text. -/
theorem C4_retry_temperature :
    (∀ (cfg : TranscribeConfig)
      (engine : ℚ → Except String TranscriptionAttemptResult)
      (elapsed : Nat → Nat) (boundaryType : BoundaryType) (hasContext : Bool)
      (r : StreamingTranscriptionResult),
      StreamingWhisper.transcribeChunk cfg engine elapsed boundaryType
        hasContext = .ok r →
      r.retryCount ≤ cfg.maxRetries ∧
      r.temperatureUsed =
        min (cfg.baseTemperature + (r.retryCount : ℚ) * cfg.temperatureIncrement)
          cfg.maxTemperature ∧
      (∃ res, engine r.temperatureUsed = .ok res ∧
        r.text = res.text ∧ r.confidence = res.confidence) ∧
      (∀ m, m < r.retryCount →
        ∃ err, engine (min (cfg.baseTemperature +
          (m : ℚ) * cfg.temperatureIncrement) cfg.maxTemperature) = .error err)) ∧
    StreamingWhisper.transcribeChunk c4Config c4Engine (fun _ => 0)
        .manualBoundary false = .ok c4Result ∧
      c4Result.retryCount = 2 ∧ c4Result.temperatureUsed = 2/5 := by
  constructor
  · intro cfg engine elapsed boundaryType hasContext r h
    have hs := StreamingWhisper.transcribeGo_spec cfg engine elapsed
      boundaryType hasContext (cfg.maxRetries + 1) 0 none r (by omega) h
    exact ⟨hs.2.1, hs.2.2.1, hs.2.2.2.1,
      fun m hm => hs.2.2.2.2 m (Nat.zero_le m) hm⟩
  · exact ⟨c4_scenario_run, rfl, rfl⟩

/-- C4 witnessed on the scenario run: the general schedule/retry properties,
instantiated at the scenario's successful result. -/
theorem C4_retry_temperature_witness :
    c4Result.retryCount ≤ c4Config.maxRetries ∧
    c4Result.temperatureUsed =
      min (c4Config.baseTemperature +
        (c4Result.retryCount : ℚ) * c4Config.temperatureIncrement)
        c4Config.maxTemperature ∧
    (∃ res, c4Engine c4Result.temperatureUsed = .ok res ∧
      c4Result.text = res.text ∧ c4Result.confidence = res.confidence) ∧
    (∀ m, m < c4Result.retryCount →
      ∃ err, c4Engine (min (c4Config.baseTemperature +
        (m : ℚ) * c4Config.temperatureIncrement) c4Config.maxTemperature) =
        .error err) :=
  C4_retry_temperature.1 c4Config c4Engine (fun _ => 0) .manualBoundary false
    c4Result c4_scenario_run

/-- A segment as returned by the external whisper engine
(`full_get_segment_text` / `full_get_segment_t0` / `full_get_segment_t1`,
times in centiseconds). -/
structure WhisperSegment where
  text : String
  t0 : Int
  t1 : Int
deriving DecidableEq

/-- The configuration fields of `StreamingWhisperConfig` that
`perform_transcription` consults. -/
structure WhisperRunConfig where
  language : Option String
  enableTimestamps : Bool
  confidenceThreshold : ℚ
deriving DecidableEq

namespace StreamingWhisper

/-- The `for i in 0..num_segments` loop of `perform_transcription`,
returning the built text, the timestamped segments and the accumulated
confidence.  Per-segment confidence is the constant placeholder 0.8 and is
only accumulated inside the `if self.config.enable_timestamps` block. -/
def collectSegments (enableTimestamps : Bool) (numSegments : Nat) :
    Nat → List WhisperSegment → String × List TranscriptionSegment × ℚ
  | _, [] => ("", [], 0)
  | i, seg :: rest =>
      let r := collectSegments enableTimestamps numSegments (i + 1) rest
      if seg.text.trim.isEmpty then r
      else
        ((seg.text ++ (if i < numSegments - 1 then " " else "")) ++ r.1,
         (if enableTimestamps then
            [{ text := seg.text.trim
               startMs := (seg.t0 : ℚ) * 10
               endMs := (seg.t1 : ℚ) * 10
               confidence := 4/5 }]
          else []) ++ r.2.1,
         (if enableTimestamps then (4/5 : ℚ) else 0) + r.2.2)

/-- `perform_transcription`: the engine run (`state.full` plus the segment
extraction) is an input; translate the segment loop, compute the mean
segment confidence and reject the attempt below `confidence_threshold`. -/
def performTranscription (cfg : WhisperRunConfig)
    (engineOutcome : Except String (List WhisperSegment)) (temperature : ℚ)
    (textContext : String) : Except String TranscriptionAttemptResult :=
  match engineOutcome with
  | .error e => .error e
  | .ok segs =>
      let numSegments := segs.length
      let r := collectSegments cfg.enableTimestamps numSegments 0 segs
      let averageConfidence : ℚ :=
        if numSegments > 0 then r.2.2 / (numSegments : ℚ) else 0
      if averageConfidence < cfg.confidenceThreshold then
        .error "Transcription confidence below threshold"
      else
        .ok { text := r.1.trim
              confidence := averageConfidence
              segments := r.2.1 }

theorem collectSegments_confidence_eq_zero (numSegments : Nat) :
    ∀ (segs : List WhisperSegment) (i : Nat),
      (collectSegments false numSegments i segs).2.2 = 0 := by
  intro segs
  induction segs with
  | nil => intro i; simp [collectSegments]
  | cons seg rest ih =>
      intro i
      rw [collectSegments]
      simp only [Bool.false_eq_true, if_false]
      split_ifs with hempty
      · exact ih (i + 1)
      all_goals (dsimp only; rw [ih (i + 1)]; simp)

theorem transcribeGo_never_ok (cfg : TranscribeConfig)
    (engine : ℚ → Except String TranscriptionAttemptResult)
    (elapsed : Nat → Nat) (boundaryType : BoundaryType) (hasContext : Bool)
    (hAll : ∀ t, ¬ (engine t).isOk = true) :
    ∀ (fuel retry : Nat) (sched : TemperatureScheduler)
      (lastError : Option String),
      ¬ (transcribeGo cfg engine elapsed boundaryType hasContext retry fuel
          sched lastError).isOk = true := by
  intro fuel
  induction fuel with
  | zero => intro retry sched lastError; simp [transcribeGo, Except.isOk, Except.toBool]
  | succ fuel ih =>
      intro retry sched lastError
      rw [transcribeGo]
      cases heng : engine sched.getTemperature with
      | ok res =>
          exact absurd (by simp [heng, Except.isOk, Except.toBool])
            (hAll sched.getTemperature)
      | error err =>
          simp only
          split_ifs with h1 h2
          all_goals
            first
              | exact ih (retry + 1) _ (some err)
              | simp [Except.isOk, Except.toBool]

end StreamingWhisper

/-- C10: with `enable_timestamps = false` no per-segment confidence is ever
accumulated, so the mean confidence of every attempt is 0; hence with
`confidence_threshold > 0` every `perform_transcription` attempt is
rejected as below threshold, and the retry loop of `transcribe_chunk` can
never return a successful result, whatever the engine outputs. -/
theorem C10_timestampless_confidence (cfg : WhisperRunConfig)
    (engineOut : ℚ → Except String (List WhisperSegment))
    (textContext : String) (hts : cfg.enableTimestamps = false)
    (hthr : 0 < cfg.confidenceThreshold) :
    (∀ (segs : List WhisperSegment) (i : Nat),
      (StreamingWhisper.collectSegments cfg.enableTimestamps segs.length
        i segs).2.2 = 0) ∧
    (∀ t, ¬ (StreamingWhisper.performTranscription cfg (engineOut t) t
        textContext).isOk = true) ∧
    (∀ (lcfg : TranscribeConfig) (elapsed : Nat → Nat)
      (boundaryType : BoundaryType) (hasContext : Bool),
      ¬ (StreamingWhisper.transcribeChunk lcfg
          (fun t => StreamingWhisper.performTranscription cfg (engineOut t) t
            textContext)
          elapsed boundaryType hasContext).isOk = true) := by
  have hzero : ∀ (segs : List WhisperSegment) (i : Nat),
      (StreamingWhisper.collectSegments cfg.enableTimestamps segs.length
        i segs).2.2 = 0 := by
    rw [hts]
    exact fun segs i =>
      StreamingWhisper.collectSegments_confidence_eq_zero segs.length segs i
  have hfail : ∀ t, ¬ (StreamingWhisper.performTranscription cfg (engineOut t)
      t textContext).isOk = true := by
    intro t
    unfold StreamingWhisper.performTranscription
    cases hout : engineOut t with
    | error e => simp [hout, Except.isOk, Except.toBool]
    | ok segs =>
        dsimp only
        have havg : (if segs.length > 0 then
            (StreamingWhisper.collectSegments cfg.enableTimestamps segs.length
              0 segs).2.2 / (segs.length : ℚ)
          else 0) = 0 := by
          split_ifs with hn
          · rw [hzero segs 0]
            simp
          · rfl
        rw [havg, if_pos hthr]
        simp [Except.isOk, Except.toBool]
  refine ⟨hzero, hfail, ?_⟩
  intro lcfg elapsed boundaryType hasContext
  exact StreamingWhisper.transcribeGo_never_ok lcfg _ elapsed boundaryType
    hasContext hfail (lcfg.maxRetries + 1) 0 _ none

/-- The configuration of the C10 witness (`enable_timestamps = false`,
default threshold 0.3). -/
def c10Config : WhisperRunConfig :=
  { language := some "en", enableTimestamps := false, confidenceThreshold := 3/10 }

/-- A C10 witness engine that always returns one non-empty segment. -/
def c10Engine : ℚ → Except String (List WhisperSegment) :=
  fun _ => .ok [{ text := "hello", t0 := 0, t1 := 50 }]

/-- C10 witnessed: with timestamps disabled and threshold 0.3, even an
engine returning a non-empty transcript is rejected. -/
theorem C10_timestampless_confidence_witness :
    ¬ (StreamingWhisper.performTranscription c10Config (c10Engine 0) 0
        "").isOk = true :=
  (C10_timestampless_confidence c10Config c10Engine "" rfl
    (by norm_num [c10Config])).2.1 0

/-! ## Streaming VAD state machine (`audio/streaming_vad.rs`) -/

/-- `StreamingVadConfig` from `streaming_vad.rs`. -/
structure StreamingVadConfig where
  sampleRate : Nat
  frameDurationMs : Nat
  redemptionTimeMs : Nat
  preSpeechPadMs : Nat
  postSpeechPadMs : Nat
  minSpeechDurationMs : Nat
  adaptiveThreshold : Bool
  energyThreshold : ℚ
  zeroCrossingThreshold : ℚ
  pitchDetectionEnabled : Bool
deriving DecidableEq

/-- The speech-tracking state of a `StreamingVadProcessor`: `is_speaking`,
the `speech_buffer` frame queue and `speech_start_time`.  The feature
extractors (noise estimator, boundary detector) feed the machine only
through the per-frame speech classification, which `processFrame` takes as
an input. -/
structure VadState where
  config : StreamingVadConfig
  isSpeaking : Bool
  speechBuffer : List (List ℚ)
  speechStartTime : Option Nat
  frameCount : Nat
deriving DecidableEq

namespace StreamingVad

/-- The `match (self.is_speaking, has_speech)` state machine of
`process_frame`, returning the emitted speech segments and the new state.
`has_speech` is the frame's classification
(`energy > threshold && speech_probability > 0.3` in the source, whose
floating-point feature extraction is abstracted into this Boolean input);
the `(pre|post)_speech_pad_ms / frame_duration_ms` float quotients are exact
integer divisions for the configurations the program builds. -/
def processFrame (s : VadState) (frame : List ℚ) (hasSpeech : Bool)
    (now : Nat) : List (List ℚ) × VadState :=
  match s.isSpeaking, hasSpeech with
  | false, true =>
      let padFrames := s.config.preSpeechPadMs / s.config.frameDurationMs
      let buffered := capFront padFrames s.speechBuffer
      (buffered ++ [frame],
       { s with isSpeaking := true, speechStartTime := some now,
                speechBuffer := [] })
  | true, true => ([frame], s)
  | true, false =>
      let buffered := s.speechBuffer ++ [frame]
      let padFrames := s.config.postSpeechPadMs / s.config.frameDurationMs
      if buffered.length > padFrames then
        let emitted :=
          match s.speechStartTime with
          | some startTime =>
              if now - startTime ≥ s.config.minSpeechDurationMs then buffered
              else []
          | none => []
        (emitted,
         { s with isSpeaking := false, speechStartTime := none,
                  speechBuffer := [] })
      else ([], { s with speechBuffer := buffered })
  | false, false =>
      let maxBufferFrames :=
        (s.config.preSpeechPadMs / s.config.frameDurationMs) * 2
      ([], { s with
        speechBuffer := capFront maxBufferFrames (s.speechBuffer ++ [frame]) })

end StreamingVad

/-- Claim C6 as stated: in hold-off (`is_speaking` with frames buffered in
the post-pad queue below `post_pad_ms`), an arriving speech frame flushes
the buffered hold-off frames as emitted speech alongside the new frame. -/
def C6Stated : Prop :=
  ∀ (s : VadState) (frame : List ℚ) (now : Nat),
    s.isSpeaking = true → s.speechBuffer ≠ [] →
    s.speechBuffer.length * s.config.frameDurationMs <
      s.config.postSpeechPadMs →
    ∀ f ∈ s.speechBuffer, f ∈ (StreamingVad.processFrame s frame true now).1

/-- The VAD configuration of the C6 runs (the chunker-built configuration:
30 ms frames, 100 ms pre-pad, 150 ms post-pad, 300 ms minimum speech). -/
def c6Config : StreamingVadConfig :=
  { sampleRate := 16000
    frameDurationMs := 30
    redemptionTimeMs := 200
    preSpeechPadMs := 100
    postSpeechPadMs := 150
    minSpeechDurationMs := 300
    adaptiveThreshold := true
    energyThreshold := 0
    zeroCrossingThreshold := 0
    pitchDetectionEnabled := true }

/-- A hold-off state: speaking, one 30 ms frame buffered (below the 150 ms
post-pad). -/
def c6State : VadState :=
  { config := c6Config
    isSpeaking := true
    speechBuffer := [[1]]
    speechStartTime := some 0
    frameCount := 5 }

/-- C6 counterexample: in the hold-off state `c6State`, a speech frame
`[2]` yields `speech_segments = [[2]]` only — the buffered hold-off frame
`[1]` is not flushed (the `(true, true)` arm of the source never touches
`speech_buffer`). -/
theorem C6_counterexample : ¬ C6Stated := by
  intro h
  have hmem := h c6State [2] 30 (by decide) (by decide) (by decide)
    [1] (by decide)
  exact absurd hmem (by decide)

/-- C6 amended: while `is_speaking`, a frame classified as speech emits that
frame alone and leaves the state — the hold-off queue included — entirely
unchanged; the buffered hold-off frames are emitted only later, at end of
speech (when total duration reaches `min_speech_duration_ms`), or
discarded. -/
theorem C6_amended (s : VadState) (frame : List ℚ) (now : Nat)
    (hspeak : s.isSpeaking = true) :
    StreamingVad.processFrame s frame true now = ([frame], s) := by
  unfold StreamingVad.processFrame
  rw [hspeak]

/-- C6 amended, witnessed on the hold-off state `c6State`. -/
theorem C6_amended_witness :
    StreamingVad.processFrame c6State [2] true 30 = ([[2]], c6State) :=
  C6_amended c6State [2] 30 rfl

/-! ## Dual-channel mixing (`audio/vad.rs`) -/

namespace DualChannelVad

/-- The mean of the squared samples (`Σ x² / len`), the square of the RMS
computed by `mix_channels`. -/
def meanSquare (l : List ℚ) : ℚ :=
  (l.map (fun x => x * x)).sum / (l.length : ℚ)

/-- The square of the `mic_rms`/`speaker_rms` value of `mix_channels`
(`0.0` for an empty channel). -/
def rmsSq (l : List ℚ) : ℚ :=
  if l.isEmpty then 0 else meanSquare l

/-- The dynamic gain selection of `mix_channels`.  The source compares
`mic_rms > speaker_rms * 2.0` on the square roots; on nonnegative values
that comparison is equivalent to `rmsSq mic > 4 * rmsSq speaker`
(`sqrt_gt_twice_sqrt_iff` below), which keeps the embedding in ℚ. -/
def mixGains (micSamples speakerSamples : List ℚ) : ℚ × ℚ :=
  if rmsSq micSamples > 4 * rmsSq speakerSamples then (4/5, 2/5)
  else if rmsSq speakerSamples > 4 * rmsSq micSamples then (2/5, 4/5)
  else (3/5, 7/10)

/-- `mix_channels`: gain-weighted sum over the longer channel (missing
samples read as 0), clamped to `[-1, 1]`. -/
def mixChannels (micSamples speakerSamples : List ℚ) : List ℚ :=
  let maxLen := max micSamples.length speakerSamples.length
  let gains := mixGains micSamples speakerSamples
  (List.range maxLen).map (fun i =>
    let micSample := micSamples.getD i 0
    let speakerSample := speakerSamples.getD i 0
    max (-1) (min 1 (micSample * gains.1 + speakerSample * gains.2)))

theorem rmsSq_nonneg (l : List ℚ) : 0 ≤ rmsSq l := by
  unfold rmsSq meanSquare
  split_ifs
  · exact le_refl 0
  · apply div_nonneg
    · apply List.sum_nonneg
      intro x hx
      obtain ⟨y, _, rfl⟩ := List.mem_map.mp hx
      exact mul_self_nonneg y
    · exact Nat.cast_nonneg _

/-- On nonnegative reals, `√a > 2 √b ↔ a > 4 b` — the bridge between the
source's comparison of RMS values and the squared comparison used in
`mixGains`. -/
theorem sqrt_gt_twice_sqrt_iff (a b : ℚ) (ha : 0 ≤ a) (hb : 0 ≤ b) :
    Real.sqrt (a : ℝ) > 2 * Real.sqrt (b : ℝ) ↔ a > 4 * b := by
  have h2 : (2 : ℝ) * Real.sqrt (b : ℝ) = Real.sqrt (4 * (b : ℝ)) := by
    rw [show (4 : ℝ) * (b : ℝ) = 2 ^ 2 * (b : ℝ) by norm_num,
      Real.sqrt_mul (by positivity) (b : ℝ), Real.sqrt_sq (by norm_num)]
  rw [h2]
  constructor
  · intro hgt
    have h4b : (0 : ℝ) ≤ 4 * (b : ℝ) := by
      have : (0 : ℝ) ≤ (b : ℝ) := by exact_mod_cast hb
      linarith
    have := (Real.sqrt_lt_sqrt_iff h4b).mp hgt
    exact_mod_cast this
  · intro hgt
    have h4b : (0 : ℝ) ≤ 4 * (b : ℝ) := by
      have : (0 : ℝ) ≤ (b : ℝ) := by exact_mod_cast hb
      linarith
    apply (Real.sqrt_lt_sqrt_iff h4b).mpr
    exact_mod_cast hgt

end DualChannelVad

/-- C7: `mix_channels` selects gains `(0.8, 0.4)` when
`RMS(mic) > 2 × RMS(loopback)`, `(0.4, 0.8)` when
`RMS(loopback) > 2 × RMS(mic)` and `(0.6, 0.7)` otherwise, and every output
sample is the gain-weighted sum of the two channels (missing samples 0)
clamped to `[-1, 1]`. -/
theorem C7_mix_channels (micSamples speakerSamples : List ℚ) :
    (DualChannelVad.mixGains micSamples speakerSamples =
      if Real.sqrt ((DualChannelVad.rmsSq micSamples : ℚ) : ℝ) >
          2 * Real.sqrt ((DualChannelVad.rmsSq speakerSamples : ℚ) : ℝ) then
        (4/5, 2/5)
      else if Real.sqrt ((DualChannelVad.rmsSq speakerSamples : ℚ) : ℝ) >
          2 * Real.sqrt ((DualChannelVad.rmsSq micSamples : ℚ) : ℝ) then
        (2/5, 4/5)
      else (3/5, 7/10)) ∧
    (DualChannelVad.mixChannels micSamples speakerSamples).length =
      max micSamples.length speakerSamples.length ∧
    ∀ i, i < max micSamples.length speakerSamples.length →
      (DualChannelVad.mixChannels micSamples speakerSamples).getD i 0 =
        max (-1) (min 1 (micSamples.getD i 0 *
            (DualChannelVad.mixGains micSamples speakerSamples).1 +
          speakerSamples.getD i 0 *
            (DualChannelVad.mixGains micSamples speakerSamples).2)) := by
  refine ⟨?_, ?_, ?_⟩
  · have hmic := DualChannelVad.rmsSq_nonneg micSamples
    have hspk := DualChannelVad.rmsSq_nonneg speakerSamples
    unfold DualChannelVad.mixGains
    by_cases h1 : DualChannelVad.rmsSq micSamples >
        4 * DualChannelVad.rmsSq speakerSamples
    · rw [if_pos h1, if_pos
        ((DualChannelVad.sqrt_gt_twice_sqrt_iff _ _ hmic hspk).mpr h1)]
    · rw [if_neg h1, if_neg (fun hc => h1
        ((DualChannelVad.sqrt_gt_twice_sqrt_iff _ _ hmic hspk).mp hc))]
      by_cases h2 : DualChannelVad.rmsSq speakerSamples >
          4 * DualChannelVad.rmsSq micSamples
      · rw [if_pos h2, if_pos
          ((DualChannelVad.sqrt_gt_twice_sqrt_iff _ _ hspk hmic).mpr h2)]
      · rw [if_neg h2, if_neg (fun hc => h2
          ((DualChannelVad.sqrt_gt_twice_sqrt_iff _ _ hspk hmic).mp hc))]
  · simp [DualChannelVad.mixChannels]
  · intro i hi
    unfold DualChannelVad.mixChannels
    dsimp only
    rw [List.getD_eq_getElem _ _ (by simpa using hi)]
    simp

/-- C7 witnessed: a concrete mixed sample — index 1 of mixing `[0, 1]`
against the shorter loopback `[2/5]` — equals the clamped gain-weighted
sum. -/
theorem C7_mix_channels_witness :
    (DualChannelVad.mixChannels [0, 1] [2/5]).getD 1 0 =
      max (-1) (min 1 ((1 : ℚ) *
          (DualChannelVad.mixGains [0, 1] [2/5]).1 +
        (0 : ℚ) * (DualChannelVad.mixGains [0, 1] [2/5]).2)) := by
  have h := (C7_mix_channels [0, 1] [2/5]).2.2 1 (by decide)
  simpa using h

end Minutes
